import Mathlib

/-!
# Verification of the slide-plan resolver (`src/components/slidePlanResolver.ts`)

A shallow embedding of the resolver core: the JavaScript value universe that
form data lives in, the numeric normalizer, the tiered column accessor, and
the `SlidePlanResolver` class methods, translated function by function from
the TypeScript source.

Modelling conventions:
* JavaScript exceptions (property access on a `null`/`undefined` receiver,
  calling `toLowerCase` on an `undefined` header) are modelled by
  `Except Unit`: `.error ()` is a thrown `TypeError`.
* JavaScript numbers produced by `parseFloat` on the decimal strings in
  scope are modelled exactly by `DecNum` (a decimal mantissa/exponent pair);
  `Option DecNum` stands for `number`-or-`NaN`.  The resolver performs no
  arithmetic on numbers beyond negation, absolute value and comparison
  with zero, all of which `DecNum` supports exactly.
* `JSVal.null` models both JS `null` and `undefined`: the resolver only
  ever distinguishes them through `== null`, `??` and truthiness, which
  treat them alike.
* String operations are implemented over character lists with JavaScript
  semantics (`String()` coercion, `trim`, `toLowerCase`, `includes`).
-/

namespace SlidePlan

/-- The universe of JavaScript values that can occur in `formData`.
Numbers held directly in form cells are modelled as integers; the numbers
the resolver computes (normalized values, KPIs) are `DecNum`s. -/
inductive JSVal where
  | null : JSVal
  | str (s : String) : JSVal
  | num (n : Int) : JSVal
  | arr (elems : List JSVal) : JSVal
  | obj (entries : List (String × JSVal)) : JSVal

/-- JS truthiness for the universe above (`!value`, `a || b`, `filter(Boolean)`). -/
def jsTruthy : JSVal → Bool
  | .null => false
  | .str s => !s.isEmpty
  | .num n => n != 0
  | .arr _ => true
  | .obj _ => true

/-- `a || b`. -/
def jsOr (a b : JSVal) : JSVal := if jsTruthy a then a else b

/-- Whether a value is `null`/`undefined`. -/
def JSVal.isNull : JSVal → Bool
  | .null => true
  | _ => false

/-- `Object.keys(v)` for a non-null receiver: own enumerable keys in
insertion order; arrays and strings enumerate their index strings; numbers
have none.  (Callers guard the `null` receiver, which throws in JS, via
`Except`.) -/
def jsKeys : JSVal → List String
  | .obj kvs => kvs.map Prod.fst
  | .arr xs => (List.range xs.length).map toString
  | .str s => (List.range s.length).map toString
  | _ => []

/-- `v.hasOwnProperty(k)` for a non-null receiver.  Arrays and strings also
own the non-enumerable `length` property. -/
def jsHasOwn (v : JSVal) (k : String) : Bool :=
  match v with
  | .obj kvs => kvs.any (fun e => e.1 == k)
  | .arr _ => k == "length" || (jsKeys v).contains k
  | .str _ => k == "length" || (jsKeys v).contains k
  | _ => false

/-- `v[k]` for a non-null receiver; absent properties yield `null`
(our merged `undefined`). -/
def jsGetProp (v : JSVal) (k : String) : JSVal :=
  match v with
  | .obj kvs => ((kvs.find? (fun e => e.1 == k)).map Prod.snd).getD .null
  | .arr xs =>
      if k == "length" then .num xs.length
      else (((List.range xs.length).find? (fun n => toString n == k)).bind
              (fun n => xs.get? n)).getD .null
  | .str s =>
      if k == "length" then .num s.length
      else ((((List.range s.length).find? (fun n => toString n == k)).bind
              (fun n => s.toList.get? n)).map (fun c => JSVal.str (String.mk [c]))).getD .null
  | _ => .null

/-- Join with commas (`Array.prototype.join(',')`). -/
def joinComma : List String → String
  | [] => ""
  | [x] => x
  | x :: xs => x ++ "," ++ joinComma xs

mutual
/-- `String(v)` (JS string coercion) for the universe above. -/
def jsToString : JSVal → String
  | .str s => s
  | .num n => toString n
  | .null => "null"
  | .obj _ => "[object Object]"
  | .arr xs => joinComma (jsArrElemStrings xs)

/-- Array elements under `Array.prototype.toString`: `null`/`undefined`
render as the empty string. -/
def jsArrElemStrings : List JSVal → List String
  | [] => []
  | .null :: vs => "" :: jsArrElemStrings vs
  | v :: vs => jsToString v :: jsArrElemStrings vs
end

/-- `String(v ?? '')`: the display form used for table cells. -/
def jsDisplay (v : JSVal) : String :=
  match v with
  | .null => ""
  | w => jsToString w

/-- The whitespace class of the source's `\s` regex and of `trim`
(modulo exotic Unicode spaces, which no form data in scope contains). -/
def jsIsSpace (c : Char) : Bool := c.isWhitespace

/-- `s.trim()`. -/
def jsTrim (s : String) : String :=
  String.mk (((s.toList.dropWhile jsIsSpace).reverse.dropWhile jsIsSpace).reverse)

/-- `s.toLowerCase()` (ASCII case folding, all the data in scope uses). -/
def lowerStr (s : String) : String := String.mk (s.toList.map Char.toLower)

/-- `s.startsWith(p)`. -/
def strStartsWith (s p : String) : Bool := List.isPrefixOf p.toList s.toList

/-- `s.endsWith(p)`. -/
def strEndsWith (s p : String) : Bool := List.isPrefixOf p.toList.reverse s.toList.reverse

/-- Substring occurrence on character lists. -/
def containsSub (l pat : List Char) : Bool :=
  match l with
  | [] => pat.isEmpty
  | _ :: t => List.isPrefixOf pat l || containsSub t pat

/-- `s.includes(pat)`. -/
def strContains (s pat : String) : Bool := containsSub s.toList pat.toList

/-- An exact JS number in scope: the decimals produced by `parseFloat` on
cleaned numeric strings.  Denotes `mant / 10 ^ fexp`. -/
structure DecNum where
  mant : Int
  fexp : Nat
deriving DecidableEq

/-- The rational a `DecNum` denotes. -/
def DecNum.toRat (d : DecNum) : ℚ := (d.mant : ℚ) / (10 : ℚ) ^ d.fexp

/-- `-Math.abs(x)`. -/
def DecNum.negAbs (d : DecNum) : DecNum := ⟨-(|d.mant|), d.fexp⟩

/-- `x === 0` (true also for `-0` and `0.00`). -/
def DecNum.isZero (d : DecNum) : Bool := d.mant == 0

/-- Value of a digit string (most significant first). -/
def digitsToNat (l : List Char) : Nat :=
  l.foldl (fun acc c => 10 * acc + (c.toNat - '0'.toNat)) 0

/-- `parseFloat` on the cleaned strings the normalizer builds: optional
sign, then the longest `digits [. digits]` prefix; no digits means `NaN`
(`none`).  Exponents are not modelled (spec §4.1: no exponent support
required; the cleaning step never produces them from form data in scope). -/
def parseFloatDec (s : String) : Option DecNum :=
  let l := s.toList.dropWhile jsIsSpace
  let sgn : Int × List Char :=
    match l with
    | '-' :: t => (-1, t)
    | '+' :: t => (1, t)
    | _ => (1, l)
  let intPart := sgn.2.takeWhile Char.isDigit
  let rest := sgn.2.dropWhile Char.isDigit
  let fracPart :=
    match rest with
    | '.' :: t => t.takeWhile Char.isDigit
    | _ => []
  if intPart.isEmpty && fracPart.isEmpty then none
  else some ⟨sgn.1 * (digitsToNat (intPart ++ fracPart) : Int), fracPart.length⟩

/-- The `/^\(.*\)$/` test: fully wrapped in parentheses, with no line
terminator inside (JS `.` does not match newlines). -/
def parenWrappedStr (s : String) : Bool :=
  strStartsWith s "(" && strEndsWith s ")" &&
    ((s.toList.drop 1).dropLast.all (fun c => c != '\n' && c != '\r'))

/-- `str.replace(/[$,\s]/g, '').replace(/[()]/g, '')`. -/
def cleanNumStr (s : String) : String :=
  String.mk ((s.toList.filter (fun c => !(c == '$' || c == ',' || jsIsSpace c))).filter
    (fun c => !(c == '(' || c == ')')))

/-- `SlidePlanResolver.normalizeNumber` (slidePlanResolver.ts:35-50):
strip currency symbols, commas, whitespace and parentheses, parse as a
decimal float, and force the result negative when the trimmed input was
fully wrapped in parentheses.  `none` is JS `NaN`. -/
def normalizeNumber (value : JSVal) : Option DecNum :=
  match value with
  | .null => none
  | v =>
    let str := jsTrim (jsToString v)
    let isNegative := parenWrappedStr str
    let cleaned := cleanNumStr str
    match parseFloatDec cleaned with
    | none => none
    | some num => some (if isNegative then num.negAbs else num)

/-! ## The template data model (`src/types.ts`) -/

/-- `FieldType` (types.ts:1-10). -/
inductive FieldTypeM where
  | text | textarea | number | date | table | bullet | signature | photos
deriving DecidableEq

/-- `FormField` (types.ts:12-23), restricted to the members the resolver
reads: `id`, `label`, `type`, `columns`. -/
structure FormFieldM where
  id : String
  label : String
  type : FieldTypeM
  columns : Option (List String)

/-- `FormSection` (types.ts:25-29). -/
structure FormSectionM where
  id : String
  title : String
  fields : List FormFieldM

/-- `ReportTemplate` (types.ts:31-36), restricted to the members the
resolver reads: `key`, `title`, `sections`. -/
structure ReportTemplateM where
  key : String
  title : String
  sections : List FormSectionM

/-- `formData`: a JS object mapping section ids to per-section data. -/
def FormData := List (String × JSVal)

/-- Top-level property read `formData[k]`. -/
def fdGet (fd : FormData) (k : String) : JSVal :=
  ((fd.find? (fun e => e.1 == k)).map Prod.snd).getD .null

/-- `v || {}`. -/
def orEmptyObj (v : JSVal) : JSVal := if jsTruthy v then v else .obj []

/-! ## Effectful list traversals

`Except Unit` threads a thrown `TypeError` through the JS iteration
helpers the source uses (`map`, `forEach`+push, `some`, `find`). -/

def mapE (f : α → Except Unit β) : List α → Except Unit (List β)
  | [] => .ok []
  | x :: xs =>
    match f x with
    | .error e => .error e
    | .ok y =>
      match mapE f xs with
      | .error e => .error e
      | .ok ys => .ok (y :: ys)

def flatMapE (f : α → Except Unit (List β)) : List α → Except Unit (List β)
  | [] => .ok []
  | x :: xs =>
    match f x with
    | .error e => .error e
    | .ok ys =>
      match flatMapE f xs with
      | .error e => .error e
      | .ok zs => .ok (ys ++ zs)

/-- `Array.prototype.some` with a possibly-throwing predicate: stops at the
first `true`, so later rows are not touched. -/
def anyE (p : α → Except Unit Bool) : List α → Except Unit Bool
  | [] => .ok false
  | x :: xs =>
    match p x with
    | .error e => .error e
    | .ok true => .ok true
    | .ok false => anyE p xs

/-- `Array.prototype.find` with a possibly-throwing predicate. -/
def findE (p : α → Except Unit Bool) : List α → Except Unit (Option α)
  | [] => .ok none
  | x :: xs =>
    match p x with
    | .error e => .error e
    | .ok true => .ok (some x)
    | .ok false => findE p xs

/-! ## Resolved slide descriptors (`ResolvedSlide`, slidePlanResolver.ts:4-16) -/

/-- `originalLayout.suggestedChart`. -/
structure SuggestedChartM where
  chartType : String
  dataPath : String
deriving DecidableEq

/-- One executive-summary KPI `{value, label}`. -/
structure KpiM where
  value : DecNum
  label : String
deriving DecidableEq

/-- The layout-specific `data` payload of a resolved slide. -/
inductive SlideDataM where
  | titleD (subtitle author : JSVal)
  | tableD (headers : List String) (rows : List (List String))
  | listD (list : List JSVal)
  | chartD (chartType : String) (labels : List String) (values : List DecNum)
  | kpiD (kpis : List KpiM)
  | imagesD (images : List JSVal)

/-- `ResolvedSlide`. -/
structure ResolvedSlideM where
  id : String
  title : String
  layout : String
  data : SlideDataM
  generativeIconPrompt : Option String
  suggestedChart : Option SuggestedChartM

/-! ## The tiered column accessors -/

/-- The display accessor `getColumnValue` local to the table-slide builder
(slidePlanResolver.ts:124-140): exact key → case-insensitive key →
positional fallback (excluding `photos`/`tooltips`) → `''`.  Throws
(`.error`) exactly when `row` is `null`/`undefined` (the receiver of
`hasOwnProperty`). -/
def getColumnValue (row : JSVal) (header : String) (headerIndex : Nat) : Except Unit String :=
  match row with
  | .null => .error ()
  | _ =>
    if jsHasOwn row header then .ok (jsDisplay (jsGetProp row header))
    else
      match (jsKeys row).find? (fun k => lowerStr k == lowerStr header) with
      | some matchingKey => .ok (jsDisplay (jsGetProp row matchingKey))
      | none =>
        let dataKeys := (jsKeys row).filter (fun k => k != "tooltips" && k != "photos")
        match dataKeys.get? headerIndex with
        | some dk => .ok (jsDisplay (jsGetProp row dk))
        | none => .ok ""

/-- The raw accessor `getColumnValue` local to the chart builder and the
summary scanner (slidePlanResolver.ts:262-268 and 348-355, identical):
same tiering, returning the raw value (`null` when all tiers miss).
The summary scanner can pass `headers[0]` of an empty column list, i.e.
`undefined` (`none` here): then `hasOwnProperty(undefined)` looks up the
key `"undefined"`, and on a miss `undefined.toLowerCase()` throws. -/
def getColumnValueRaw (row : JSVal) (header : Option String) (headerIndex : Nat) : Except Unit JSVal :=
  match row with
  | .null => .error ()
  | _ =>
    let hstr := match header with | some h => h | none => "undefined"
    if jsHasOwn row hstr then .ok (jsGetProp row hstr)
    else
      match header with
      | none => .error ()
      | some h =>
        match (jsKeys row).find? (fun k => lowerStr k == lowerStr h) with
        | some matchingKey => .ok (jsGetProp row matchingKey)
        | none =>
          let dataKeys := (jsKeys row).filter (fun k => k != "tooltips" && k != "photos")
          match dataKeys.get? headerIndex with
          | some dk => .ok (jsGetProp row dk)
          | none => .ok .null

/-! ## The resolver (`SlidePlanResolver`) -/

/-- `field.label || section.title`. -/
def labelOrTitle (field : FormFieldM) (sec : FormSectionM) : String :=
  if field.label.isEmpty then sec.title else field.label

/-- `getIconPromptForSection` (slidePlanResolver.ts:404-425). -/
def getIconPromptForSection (sec : FormSectionM) : String :=
  let sectionTitle := lowerStr sec.title
  if strContains sectionTitle "financial" || strContains sectionTitle "treasury" ||
      strContains sectionTitle "receipt" || strContains sectionTitle "disbursement" then
    "A clean, modern icon representing financial data and monetary transactions"
  else if strContains sectionTitle "membership" || strContains sectionTitle "attendance" then
    "A simple icon representing people and community engagement"
  else if strContains sectionTitle "program" || strContains sectionTitle "activities" ||
      strContains sectionTitle "ministries" then
    "An icon representing programs, activities, and ministry work"
  else if strContains sectionTitle "youth" || strContains sectionTitle "children" then
    "A friendly icon representing youth and children programs"
  else if strContains sectionTitle "outreach" || strContains sectionTitle "mission" then
    "An icon representing community outreach and mission work"
  else
    "A professional icon representing church ministry and administration"

/-- `createTitleSlide` (slidePlanResolver.ts:85-102): always returns a
slide; subtitle and author come from the `header` form data under the
`quarter`/`reportingQuarter` and `preparedBy`/`reportingLeader` aliases,
defaulting to `''`. -/
def createTitleSlide (t : ReportTemplateM) (fd : FormData) : ResolvedSlideM :=
  let headerData := orEmptyObj (fdGet fd "header")
  let quarter := jsOr (jsGetProp headerData "quarter") (jsOr (jsGetProp headerData "reportingQuarter") (.str ""))
  let preparedBy := jsOr (jsGetProp headerData "preparedBy") (jsOr (jsGetProp headerData "reportingLeader") (.str ""))
  { id := "title-" ++ t.key
    title := t.title
    layout := "title"
    data := .titleD quarter preparedBy
    generativeIconPrompt := none
    suggestedChart := none }

/-- Pages of at most 4 photos: `slice(i, i+4)` for `i = 0, 4, 8, ...`. -/
def chunk4 : List JSVal → List (List JSVal)
  | [] => []
  | [a] => [[a]]
  | [a, b] => [[a, b]]
  | [a, b, c] => [[a, b, c]]
  | a :: b :: c :: d :: rest => [a, b, c, d] :: chunk4 rest

/-- The paginated photo-grid slides for photos embedded in table rows
(slidePlanResolver.ts:165-182). -/
def tablePhotoSlides (sec : FormSectionM) (field : FormFieldM) (fieldIndex : Nat)
    (photos : List JSVal) : List ResolvedSlideM :=
  let totalPages := (photos.length + 3) / 4
  (chunk4 photos).enum.map (fun e =>
    let pageNum := e.1 + 1
    { id := sec.id ++ "-table-photos-" ++ toString fieldIndex ++ "-page" ++ toString pageNum
      title := labelOrTitle field sec ++ " - Photos" ++
        (if totalPages > 1 then " (" ++ toString pageNum ++ "/" ++ toString totalPages ++ ")" else "")
      layout := "photoGrid"
      data := .imagesD e.2
      generativeIconPrompt := none
      suggestedChart := none })

/-- The paginated photo-grid slides for a photo-collection field
(slidePlanResolver.ts:209-224). -/
def fieldPhotoSlides (sec : FormSectionM) (field : FormFieldM) (fieldIndex : Nat)
    (photoData : List JSVal) : List ResolvedSlideM :=
  let totalPages := (photoData.length + 3) / 4
  (chunk4 photoData).enum.map (fun e =>
    let pageNum := e.1 + 1
    { id := sec.id ++ "-photos-" ++ toString fieldIndex ++ "-page" ++ toString pageNum
      title := labelOrTitle field sec ++
        (if totalPages > 1 then " (" ++ toString pageNum ++ "/" ++ toString totalPages ++ ")" else "")
      layout := "photoGrid"
      data := .imagesD e.2
      generativeIconPrompt := none
      suggestedChart := none })

/-- Whether a `(label, value)` pair survives the chart filter
(slidePlanResolver.ts:293-301): non-empty label, non-`NaN` value, and not
one of the reserved aggregate labels. -/
def chartKeep (e : String × Option DecNum) : Bool :=
  !e.1.isEmpty && e.2.isSome &&
    (let label := lowerStr e.1
     label != "total" && label != "net surplus / (deficit)" && label != "grand total")

/-- The `for (let i = 1; i < headers.length; i++)` scan for the first
column with at least one numeric value (slidePlanResolver.ts:275-285),
over the index list `[1, ..., headers.length - 1]`. -/
def firstNumericColE (rows : List JSVal) (headers : List String) : List Nat → Except Unit (Option Nat)
  | [] => .ok none
  | i :: is =>
    match anyE (fun row =>
        match getColumnValueRaw row (headers.get? i) i with
        | .error e => .error e
        | .ok val => .ok (!val.isNull && (normalizeNumber val).isSome)) rows with
    | .error e => .error e
    | .ok true => .ok (some i)
    | .ok false => firstNumericColE rows headers is

/-- The per-row `(label, value)` extraction of the chart builder
(slidePlanResolver.ts:290-292): resolve the label column (index 0) for
display and normalize the chosen value column. -/
def chartPairE (headers : List String) (valueColIndex : Nat) (row : JSVal) :
    Except Unit (String × Option DecNum) :=
  match getColumnValueRaw row (headers.get? 0) 0 with
  | .error e => .error e
  | .ok lv =>
    match getColumnValueRaw row (headers.get? valueColIndex) valueColIndex with
    | .error e => .error e
    | .ok vv => .ok (jsDisplay lv, normalizeNumber vv)

/-- `createChartFromTable` (slidePlanResolver.ts:256-329). -/
def createChartFromTable (field : FormFieldM) (tableData : List JSVal) (sec : FormSectionM)
    (fieldIndex : Nat) : Except Unit (Option ResolvedSlideM) :=
  match field.columns with
  | none => .ok none
  | some headers =>
    if headers.length < 2 then .ok none
    else
      match firstNumericColE tableData headers (List.range' 1 (headers.length - 1)) with
      | .error e => .error e
      | .ok none => .ok none
      | .ok (some valueColIndex) =>
        match mapE (chartPairE headers valueColIndex) tableData with
        | .error e => .error e
        | .ok rawPairs =>
          let chartData := rawPairs.filter chartKeep
          if chartData.isEmpty || chartData.all (fun it => (it.2.getD ⟨0, 0⟩).isZero) then .ok none
          else
            let labels := chartData.map Prod.fst
            let values := chartData.map (fun it => it.2.getD ⟨0, 0⟩)
            let chartType := if values.length > 5 then "bar" else "pie"
            .ok (some
              { id := sec.id ++ "-chart-" ++ toString fieldIndex
                title := labelOrTitle field sec ++ " - Chart"
                layout := "chartFull"
                data := .chartD chartType labels values
                generativeIconPrompt := some ("A " ++ chartType ++ " chart icon representing data visualization")
                suggestedChart := some ⟨chartType, "$." ++ sec.id ++ "." ++ field.id⟩ })

/-- The slides one table field contributes (slidePlanResolver.ts:117-183):
the two-column table slide, then the chart slide when derivable, then the
paginated slides for any `photos` found in the rows. -/
def tableFieldSlides (sectionData : JSVal) (sec : FormSectionM) (field : FormFieldM)
    (fieldIndex : Nat) : Except Unit (List ResolvedSlideM) :=
  match jsGetProp sectionData field.id with
  | .arr tableData =>
    if tableData.isEmpty then .ok []
    else
      let headers := field.columns.getD []
      match mapE (fun row => mapE (fun (e : Nat × String) => getColumnValue row e.2 e.1) headers.enum)
          tableData with
      | .error er => .error er
      | .ok rows =>
        let tableSlide : ResolvedSlideM :=
          { id := sec.id ++ "-table-" ++ toString fieldIndex
            title := labelOrTitle field sec
            layout := "twoColumn"
            data := .tableD headers rows
            generativeIconPrompt := some (getIconPromptForSection sec)
            suggestedChart := none }
        match createChartFromTable field tableData sec fieldIndex with
        | .error er => .error er
        | .ok chartOpt =>
          match mapE (fun row =>
              match row with
              | .null => .error ()
              | r => .ok (let p := jsGetProp r "photos"; if jsTruthy p then p else .arr [])) tableData with
          | .error er => .error er
          | .ok photoVals =>
            let tablePhotos :=
              (photoVals.flatMap (fun v => match v with | .arr xs => xs | w => [w])).filter jsTruthy
            let photoSlides :=
              if tablePhotos.isEmpty then [] else tablePhotoSlides sec field fieldIndex tablePhotos
            .ok ([tableSlide] ++ chartOpt.toList ++ photoSlides)
  | _ => .ok []

/-- The slide one bullet field contributes (slidePlanResolver.ts:186-202). -/
def bulletFieldSlides (sectionData : JSVal) (sec : FormSectionM) (field : FormFieldM)
    (fieldIndex : Nat) : List ResolvedSlideM :=
  match jsGetProp sectionData field.id with
  | .arr bulletData =>
    let kept := bulletData.filter jsTruthy
    if kept.isEmpty then []
    else
      [{ id := sec.id ++ "-bullet-" ++ toString fieldIndex
         title := labelOrTitle field sec
         layout := "imageLeftTextRight"
         data := .listD kept
         generativeIconPrompt := some (getIconPromptForSection sec)
         suggestedChart := none }]
  | _ => []

/-- The slides one photo-collection field contributes
(slidePlanResolver.ts:205-225). -/
def photoFieldSlides (sectionData : JSVal) (sec : FormSectionM) (field : FormFieldM)
    (fieldIndex : Nat) : List ResolvedSlideM :=
  match jsGetProp sectionData field.id with
  | .arr photoData =>
    if photoData.isEmpty then [] else fieldPhotoSlides sec field fieldIndex photoData
  | _ => []

/-- The scalar/text group slide (slidePlanResolver.ts:228-251). -/
def textFieldSlides (sectionData : JSVal) (sec : FormSectionM)
    (textFields : List FormFieldM) : List ResolvedSlideM :=
  if textFields.isEmpty then []
  else
    let textList := textFields.filterMap (fun f =>
      let value := jsGetProp sectionData f.id
      if !(jsTruthy value) then none else some (f.label ++ ": " ++ jsToString value))
    if textList.isEmpty then []
    else
      [{ id := sec.id ++ "-text-summary"
         title := sec.title
         layout := "imageLeftTextRight"
         data := .listD (textList.map JSVal.str)
         generativeIconPrompt := some (getIconPromptForSection sec)
         suggestedChart := none }]

/-- `createSlidesForSection` (slidePlanResolver.ts:104-254): group the
section's fields by type and emit table, bullet, photo, then text slides.
The `sectionIndex` parameter is accepted but never read, as in the source. -/
def createSlidesForSection (fd : FormData) (sec : FormSectionM) (sectionIndex : Nat) :
    Except Unit (List ResolvedSlideM) :=
  let sectionData := orEmptyObj (fdGet fd sec.id)
  let tables := sec.fields.filter (fun f => f.type == FieldTypeM.table)
  let bullets := sec.fields.filter (fun f => f.type == FieldTypeM.bullet)
  let photos := sec.fields.filter (fun f => f.type == FieldTypeM.photos)
  let textFields := sec.fields.filter (fun f =>
    f.type == FieldTypeM.text || f.type == FieldTypeM.textarea ||
    f.type == FieldTypeM.number || f.type == FieldTypeM.date)
  match flatMapE (fun (e : Nat × FormFieldM) => tableFieldSlides sectionData sec e.2 e.1)
      tables.enum with
  | .error er => .error er
  | .ok tableSlides =>
    let bulletSlides := bullets.enum.flatMap (fun e => bulletFieldSlides sectionData sec e.2 e.1)
    let photoSlides := photos.enum.flatMap (fun e => photoFieldSlides sectionData sec e.2 e.1)
    let textSlides := textFieldSlides sectionData sec textFields
    .ok (tableSlides ++ bulletSlides ++ photoSlides ++ textSlides)

/-- The `tableData.find(...)` predicate of the summary scanner
(slidePlanResolver.ts:358-361): the first resolved column value,
lower-cased, contains "total", "surplus" or "deficit". -/
def isTotalRowE (headers : List String) (row : JSVal) : Except Unit Bool :=
  match getColumnValueRaw row (headers.get? 0) 0 with
  | .error e => .error e
  | .ok v =>
    let labelValue := lowerStr (jsDisplay v)
    .ok (strContains labelValue "total" || strContains labelValue "surplus" ||
         strContains labelValue "deficit")

/-- The `for (let i = 1; ...) { ...; break }` KPI extraction from a found
total row (slidePlanResolver.ts:363-377): the first later column whose
value normalizes, as a one-element list; `break` makes it at most one. -/
def extractFirstKpiE (row : JSVal) (headers : List String) (label : String) :
    List Nat → Except Unit (List KpiM)
  | [] => .ok []
  | i :: is =>
    match getColumnValueRaw row (headers.get? i) i with
    | .error e => .error e
    | .ok value =>
      match normalizeNumber value with
      | some numValue => .ok [⟨numValue, if label.isEmpty then (headers.get? i).getD "" else label⟩]
      | none => extractFirstKpiE row headers label is

/-- The KPIs one field contributes to the executive-summary scan
(slidePlanResolver.ts:340-379). -/
def kpisForFieldE (sectionData : JSVal) (field : FormFieldM) : Except Unit (List KpiM) :=
  match field.type, field.columns with
  | FieldTypeM.table, some headers =>
    match jsGetProp sectionData field.id with
    | .arr tableData =>
      match findE (isTotalRowE headers) tableData with
      | .error e => .error e
      | .ok none => .ok []
      | .ok (some totalRow) =>
        extractFirstKpiE totalRow headers field.label (List.range' 1 (headers.length - 1))
    | _ => .ok []
  | _, _ => .ok []

/-- The full KPI discovery scan of `createSummarySlide`
(slidePlanResolver.ts:331-380): all non-reserved sections, in order. -/
def collectKpisE (t : ReportTemplateM) (fd : FormData) : Except Unit (List KpiM) :=
  flatMapE (fun sec =>
    if sec.id == "header" || sec.id == "signatures" then .ok []
    else flatMapE (kpisForFieldE (orEmptyObj (fdGet fd sec.id))) sec.fields) t.sections

/-- `createSummarySlide` (slidePlanResolver.ts:331-396): emit the summary
slide only when between 2 and 4 KPIs were collected. -/
def createSummarySlide (t : ReportTemplateM) (fd : FormData) : Except Unit (Option ResolvedSlideM) :=
  match collectKpisE t fd with
  | .error e => .error e
  | .ok kpis =>
    if 2 ≤ kpis.length && kpis.length ≤ 4 then
      .ok (some
        { id := "summary-" ++ t.key
          title := "Executive Summary"
          layout := "summary"
          data := .kpiD (kpis.take 4)
          generativeIconPrompt :=
            some "A minimalist icon representing key performance metrics and summary statistics"
          suggestedChart := none })
    else .ok none

/-- `createPhotoGridSlide` (slidePlanResolver.ts:398-402): always `null`. -/
def createPhotoGridSlide : Option ResolvedSlideM := none

/-- One step of the `forEach` over enumerated sections in `resolve`
(slidePlanResolver.ts:63-72): skip the reserved `header` and `signatures`
sections, make slides for the rest. -/
def sectionStepE (fd : FormData) (e : Nat × FormSectionM) : Except Unit (List ResolvedSlideM) :=
  if e.2.id == "header" then .ok []
  else if e.2.id == "signatures" then .ok []
  else createSlidesForSection fd e.2 e.1

/-- `resolve` (slidePlanResolver.ts:55-83): title slide, per-section slides
(skipping `header` and `signatures`), the optional summary slide, the
(always absent) global photo slide. -/
def resolveE (t : ReportTemplateM) (fd : FormData) : Except Unit (List ResolvedSlideM) :=
  let titleSlide := createTitleSlide t fd
  match flatMapE (sectionStepE fd) t.sections.enum with
  | .error er => .error er
  | .ok body =>
    match createSummarySlide t fd with
    | .error er => .error er
    | .ok summaryOpt =>
      .ok (titleSlide :: (body ++ summaryOpt.toList ++ createPhotoGridSlide.toList))

/-- `getResolvedSlides` (slidePlanResolver.ts:431-434). -/
def getResolvedSlides (t : ReportTemplateM) (fd : FormData) : Except Unit (List ResolvedSlideM) :=
  resolveE t fd

/-! ## Concrete inputs used by the theorems below -/

/-- The end-to-end scenario template of spec §8: a `header` section and a
`financial` section with one two-column table field. -/
def scenarioTemplate : ReportTemplateM :=
  { key := "quarterly", title := "Quarterly Report",
    sections :=
      [ { id := "header", title := "Report Header", fields := [] },
        { id := "financial", title := "Financial", fields :=
            [ { id := "financialTable", label := "Financial Summary",
                type := FieldTypeM.table, columns := some ["Item", "Amount"] } ] } ] }

/-- The end-to-end scenario form data of spec §8. -/
def scenarioData : FormData :=
  [ ("header", .obj [("quarter", .str "Q1 2025"), ("preparedBy", .str "Jane Doe")]),
    ("financial", .obj [("financialTable", .arr
      [ .obj [("Item", .str "Offerings"), ("Amount", .str "$1,200")],
        .obj [("Item", .str "Total"), ("Amount", .str "$1,200")] ])]) ]

/-- What the scenario actually resolves to: title slide, two-column table
slide, and a pie-chart slide (the "Total" row is filtered out of the chart
but the "Offerings" row remains a chartable point). -/
def scenarioSlides : List ResolvedSlideM :=
  [ { id := "title-quarterly", title := "Quarterly Report", layout := "title",
      data := .titleD (.str "Q1 2025") (.str "Jane Doe"),
      generativeIconPrompt := none, suggestedChart := none },
    { id := "financial-table-0", title := "Financial Summary", layout := "twoColumn",
      data := .tableD ["Item", "Amount"] [["Offerings", "$1,200"], ["Total", "$1,200"]],
      generativeIconPrompt := some "A clean, modern icon representing financial data and monetary transactions",
      suggestedChart := none },
    { id := "financial-chart-0", title := "Financial Summary - Chart", layout := "chartFull",
      data := .chartD "pie" ["Offerings"] [⟨1200, 0⟩],
      generativeIconPrompt := some "A pie chart icon representing data visualization",
      suggestedChart := some ⟨"pie", "$.financial.financialTable"⟩ } ]

/-- A structurally invalid template: a table field whose declared column
list is empty. -/
def emptyColumnsTemplate : ReportTemplateM :=
  { key := "k", title := "T",
    sections := [ { id := "s1", title := "S", fields :=
      [ { id := "t", label := "L", type := FieldTypeM.table, columns := some [] } ] } ] }

/-- Form data holding one non-empty row for the empty-columns table. -/
def emptyColumnsData : FormData := [("s1", .obj [("t", .arr [.obj [("A", .str "x")]])])]

/-- A one-table-per-section template builder: section `s<n>` with a
two-column table whose rows hold a "Total" line, producing one KPI each. -/
def kpiSection (n : Nat) : FormSectionM :=
  { id := "s" ++ toString n, title := "S", fields :=
    [ { id := "t", label := "L" ++ toString n, type := FieldTypeM.table,
        columns := some ["Item", "Amount"] } ] }

/-- A template with `n` KPI-producing sections. -/
def kpiTemplate (n : Nat) : ReportTemplateM :=
  { key := "k", title := "T", sections := (List.range n).map kpiSection }

/-- Form data giving each of the `n` sections a table with a "Total" row. -/
def kpiData (n : Nat) : FormData :=
  (List.range n).map (fun m =>
    ("s" ++ toString m, JSVal.obj [("t", .arr [.obj [("Item", .str "Total"), ("Amount", .str "7")]])]))

/-- What `resolve` returns on the two-KPI-section input: title, two table
slides, then the summary slide carrying both KPIs. -/
def twoKpiSlides : List ResolvedSlideM :=
  [ { id := "title-k", title := "T", layout := "title",
      data := .titleD (.str "") (.str ""), generativeIconPrompt := none, suggestedChart := none },
    { id := "s0-table-0", title := "L0", layout := "twoColumn",
      data := .tableD ["Item", "Amount"] [["Total", "7"]],
      generativeIconPrompt := some "A professional icon representing church ministry and administration",
      suggestedChart := none },
    { id := "s1-table-0", title := "L1", layout := "twoColumn",
      data := .tableD ["Item", "Amount"] [["Total", "7"]],
      generativeIconPrompt := some "A professional icon representing church ministry and administration",
      suggestedChart := none },
    { id := "summary-k", title := "Executive Summary", layout := "summary",
      data := .kpiD [⟨⟨7, 0⟩, "L0"⟩, ⟨⟨7, 0⟩, "L1"⟩],
      generativeIconPrompt :=
        some "A minimalist icon representing key performance metrics and summary statistics",
      suggestedChart := none } ]

/-- A photo-collection field. -/
def galleryField : FormFieldM :=
  { id := "pics", label := "Event Photos", type := FieldTypeM.photos, columns := none }

/-- A section holding only the photo-collection field. -/
def gallerySec : FormSectionM :=
  { id := "gallery", title := "Gallery", fields := [galleryField] }

/-- A template whose only non-reserved section is the photo gallery. -/
def galleryTemplate : ReportTemplateM :=
  { key := "k", title := "T", sections := [gallerySec] }

/-- Form data giving the gallery field an arbitrary photo list. -/
def galleryData (photos : List JSVal) : FormData :=
  [("gallery", .obj [("pics", .arr photos)])]

/-- A table field with a caller-chosen column list. -/
def budgetField (headers : List String) : FormFieldM :=
  { id := "tbl", label := "Budget", type := FieldTypeM.table, columns := some headers }

/-- A section holding only the table field. -/
def budgetSec (headers : List String) : FormSectionM :=
  { id := "fin", title := "Treasury", fields := [budgetField headers] }

/-- A template whose only non-reserved section is the table section. -/
def budgetTemplate (headers : List String) : ReportTemplateM :=
  { key := "k", title := "T", sections := [budgetSec headers] }

/-- Form data giving the table field an arbitrary row list. -/
def budgetData (tableData : List JSVal) : FormData :=
  [("fin", .obj [("tbl", .arr tableData)])]

/-- The single chartable row used by the C6 witness. -/
def chartWitnessRow : JSVal := .obj [("Item", .str "Offerings"), ("Amount", .str "$1,200")]

/-- What the budget template resolves to on the single chartable row. -/
def chartWitnessSlides : List ResolvedSlideM :=
  [ { id := "title-k", title := "T", layout := "title",
      data := .titleD (.str "") (.str ""), generativeIconPrompt := none, suggestedChart := none },
    { id := "fin-table-0", title := "Budget", layout := "twoColumn",
      data := .tableD ["Item", "Amount"] [["Offerings", "$1,200"]],
      generativeIconPrompt :=
        some "A clean, modern icon representing financial data and monetary transactions",
      suggestedChart := none },
    { id := "fin-chart-0", title := "Budget - Chart", layout := "chartFull",
      data := .chartD "pie" ["Offerings"] [⟨1200, 0⟩],
      generativeIconPrompt := some "A pie chart icon representing data visualization",
      suggestedChart := some ⟨"pie", "$.fin.tbl"⟩ } ]

/-! ## Helper lemmas -/

/-- Unfolding `normalizeNumber` for a non-null argument. -/
lemma normalizeNumber_eq (v : JSVal) (hv : v.isNull = false) :
    normalizeNumber v =
      (match parseFloatDec (cleanNumStr (jsTrim (jsToString v))) with
       | none => none
       | some num => some (if parenWrappedStr (jsTrim (jsToString v)) then num.negAbs else num)) := by
  cases v with
  | null => simp [JSVal.isNull] at hv
  | str s => rfl
  | num n => rfl
  | arr xs => rfl
  | obj kvs => rfl

/-- `find?` returns the unique element satisfying the predicate. -/
lemma find?_eq_some_of_unique {α : Type} (p : α → Bool) (l : List α) (x : α)
    (hx : x ∈ l) (hpx : p x = true) (huniq : ∀ y ∈ l, p y = true → y = x) :
    l.find? p = some x := by
  induction l with
  | nil => cases hx
  | cons a t ih =>
    by_cases hpa : p a = true
    · have hax : a = x := huniq a (List.mem_cons_self a t) hpa
      subst hax
      simp [List.find?_cons_of_pos _ hpa]
    · have hne : a ≠ x := fun he => hpa (he ▸ hpx)
      have hx' : x ∈ t := by
        rcases List.mem_cons.mp hx with he | ht
        · exact absurd he.symm hne
        · exact ht
      rw [List.find?_cons_of_neg _ (by simpa using hpa)]
      exact ih hx' (fun y hy hp => huniq y (List.mem_cons_of_mem _ hy) hp)

/-- First-key association lookup under key uniqueness. -/
lemma assoc_find?_eq (kvs : List (String × JSVal)) (h : String) (v : JSVal)
    (hnd : (kvs.map Prod.fst).Nodup) (hmem : (h, v) ∈ kvs) :
    kvs.find? (fun e => e.1 == h) = some (h, v) := by
  induction kvs with
  | nil => cases hmem
  | cons a t ih =>
    rcases List.mem_cons.mp hmem with he | hmem'
    · subst he
      simp [List.find?_cons_of_pos]
    · have hh : h ∈ t.map Prod.fst := List.mem_map.mpr ⟨(h, v), hmem', rfl⟩
      have hane : a.1 ≠ h := by
        intro he
        have := (List.nodup_cons.mp hnd).1
        exact this (he ▸ hh)
      rw [List.find?_cons_of_neg _ (by simpa using hane)]
      exact ih (List.nodup_cons.mp hnd).2 hmem'

/-- `hasOwnProperty` on an object is key membership. -/
lemma jsHasOwn_obj_iff (kvs : List (String × JSVal)) (k : String) :
    jsHasOwn (.obj kvs) k = true ↔ k ∈ kvs.map Prod.fst := by
  simp only [jsHasOwn, List.any_eq_true, List.mem_map, beq_iff_eq]

/-- `row[k]` on an object with unique keys. -/
lemma jsGetProp_obj_eq (kvs : List (String × JSVal)) (k : String) (v : JSVal)
    (hnd : (kvs.map Prod.fst).Nodup) (hmem : (k, v) ∈ kvs) :
    jsGetProp (.obj kvs) k = v := by
  simp [jsGetProp, assoc_find?_eq kvs k v hnd hmem]

/-- Membership through a successful `flatMapE`. -/
lemma flatMapE_ok_mem {α β : Type} (f : α → Except Unit (List β)) :
    ∀ (xs : List α) (l : List β), flatMapE f xs = .ok l → ∀ s ∈ l,
      ∃ x ∈ xs, ∃ lx, f x = .ok lx ∧ s ∈ lx := by
  intro xs
  induction xs with
  | nil =>
    intro l h s hs
    injection h with h
    subst h
    cases hs
  | cons a t ih =>
    intro l h s hs
    simp only [flatMapE] at h
    cases hfa : f a with
    | error e => rw [hfa] at h; cases h
    | ok ys =>
      rw [hfa] at h
      cases hft : flatMapE f t with
      | error e => rw [hft] at h; cases h
      | ok zs =>
        rw [hft] at h
        injection h with h
        subst h
        rcases List.mem_append.mp hs with hy | hz
        · exact ⟨a, List.mem_cons_self a t, ys, hfa, hy⟩
        · rcases ih zs hft s hz with ⟨x, hx, lx, hfx, hsx⟩
          exact ⟨x, List.mem_cons_of_mem _ hx, lx, hfx, hsx⟩

/-- The section walker ignores its section index (the source accepts but
never reads `sectionIndex`). -/
lemma createSlidesForSection_index_irrelevant (fd : FormData) (sec : FormSectionM) (i j : Nat) :
    createSlidesForSection fd sec i = createSlidesForSection fd sec j := rfl

/-- Unfolding `flatMapE` over a cons cell. -/
lemma flatMapE_cons {α β : Type} (f : α → Except Unit (List β)) (x : α) (xs : List α) :
    flatMapE f (x :: xs) =
      match f x with
      | .error e => .error e
      | .ok ys =>
        match flatMapE f xs with
        | .error e => .error e
        | .ok zs => .ok (ys ++ zs) := rfl

/-- A step contributing nothing drops out of `flatMapE`. -/
lemma flatMapE_cons_skip {α β : Type} {f : α → Except Unit (List β)} {x : α} {xs : List α}
    (h : f x = .ok []) : flatMapE f (x :: xs) = flatMapE f xs := by
  rw [flatMapE_cons, h]
  cases hxs : flatMapE f xs <;> simp

/-- The `forEach`-with-early-`return` walk over enumerated sections equals a
filter of the reserved ids followed by a plain walk. -/
lemma sections_walk_eq_filter (fd : FormData) :
    ∀ (l : List FormSectionM) (n : Nat),
      flatMapE (sectionStepE fd) (List.enumFrom n l) =
      flatMapE (fun sec => createSlidesForSection fd sec 0)
        (l.filter (fun sec => !(sec.id == "header") && !(sec.id == "signatures"))) := by
  intro l
  induction l with
  | nil => intro n; rfl
  | cons a t ih =>
    intro n
    show flatMapE (sectionStepE fd) ((n, a) :: List.enumFrom (n + 1) t) = _
    cases hh : a.id == "header" with
    | true =>
      have hstep : sectionStepE fd (n, a) = .ok [] := by simp [sectionStepE, hh]
      have hp : (!(a.id == "header") && !(a.id == "signatures")) = false := by simp [hh]
      rw [flatMapE_cons_skip hstep, ih (n + 1), List.filter_cons, hp]
      rfl
    | false =>
      cases hs : a.id == "signatures" with
      | true =>
        have hstep : sectionStepE fd (n, a) = .ok [] := by simp [sectionStepE, hh, hs]
        have hp : (!(a.id == "header") && !(a.id == "signatures")) = false := by simp [hs]
        rw [flatMapE_cons_skip hstep, ih (n + 1), List.filter_cons, hp]
        rfl
      | false =>
        have hstep : sectionStepE fd (n, a) = createSlidesForSection fd a n := by
          simp [sectionStepE, hh, hs]
        have hp : (!(a.id == "header") && !(a.id == "signatures")) = true := by simp [hh, hs]
        rw [List.filter_cons, hp]
        show _ = flatMapE _ (a :: _)
        rw [flatMapE_cons, flatMapE_cons, hstep, ih (n + 1)]
        rfl

/-- Decomposition of a successful `resolve`: the title slide first, then
the per-section slides of the non-reserved sections in order, then the
optional summary slide. -/
lemma resolveE_decomp (t : ReportTemplateM) (fd : FormData) (slides : List ResolvedSlideM)
    (h : resolveE t fd = .ok slides) :
    ∃ body summaryOpt,
      flatMapE (fun sec => createSlidesForSection fd sec 0)
        (t.sections.filter (fun sec => !(sec.id == "header") && !(sec.id == "signatures"))) =
        .ok body ∧
      createSummarySlide t fd = .ok summaryOpt ∧
      slides = createTitleSlide t fd :: (body ++ summaryOpt.toList) := by
  unfold resolveE at h
  cases hb : flatMapE (sectionStepE fd) t.sections.enum with
  | error e => rw [hb] at h; cases h
  | ok body =>
    rw [hb] at h
    cases hsum : createSummarySlide t fd with
    | error e => rw [hsum] at h; cases h
    | ok summaryOpt =>
      rw [hsum] at h
      injection h with h
      refine ⟨body, summaryOpt, ?_, rfl, ?_⟩
      · rw [← hb]
        show _ = flatMapE _ (List.enumFrom 0 t.sections)
        rw [sections_walk_eq_filter fd t.sections 0]
      · rw [← h]
        simp [createPhotoGridSlide]

/-- Photo-grid pages from table rows all carry the `photoGrid` layout. -/
lemma tablePhotoSlides_layout (sec : FormSectionM) (field : FormFieldM) (fi : Nat)
    (photos : List JSVal) : ∀ s ∈ tablePhotoSlides sec field fi photos, s.layout = "photoGrid" := by
  intro s hs
  rcases List.mem_map.mp hs with ⟨e, _, rfl⟩
  rfl

/-- Photo-grid pages from a photo field all carry the `photoGrid` layout. -/
lemma fieldPhotoSlides_layout (sec : FormSectionM) (field : FormFieldM) (fi : Nat)
    (photoData : List JSVal) : ∀ s ∈ fieldPhotoSlides sec field fi photoData, s.layout = "photoGrid" := by
  intro s hs
  rcases List.mem_map.mp hs with ⟨e, _, rfl⟩
  rfl

/-- A produced chart slide carries the `chartFull` layout. -/
lemma createChartFromTable_layout (field : FormFieldM) (tableData : List JSVal)
    (sec : FormSectionM) (fi : Nat) (s : ResolvedSlideM)
    (h : createChartFromTable field tableData sec fi = .ok (some s)) : s.layout = "chartFull" := by
  unfold createChartFromTable at h
  dsimp only [] at h
  split at h
  · simp at h
  · split at h
    · simp at h
    · split at h
      · simp at h
      · simp at h
      · split at h
        · simp at h
        · split at h
          · simp at h
          · rw [Except.ok.injEq, Option.some.injEq] at h
            rw [← h]

/-- Every slide a table field contributes has one of the table-path
layouts. -/
lemma tableFieldSlides_layout (sd : JSVal) (sec : FormSectionM) (field : FormFieldM) (fi : Nat)
    (l : List ResolvedSlideM) (h : tableFieldSlides sd sec field fi = .ok l) :
    ∀ s ∈ l, s.layout = "twoColumn" ∨ s.layout = "chartFull" ∨ s.layout = "photoGrid" := by
  intro s hs
  unfold tableFieldSlides at h
  dsimp only [] at h
  split at h
  case h_1 tableData heq =>
    split at h
    · rw [Except.ok.injEq] at h
      rw [← h] at hs
      cases hs
    · split at h
      · cases h
      · split at h
        case h_1 er hchart => cases h
        case h_2 chartOpt hchart =>
          split at h
          · cases h
          · rw [Except.ok.injEq] at h
            rw [← h] at hs
            rcases List.mem_append.mp hs with hs' | hs'
            · rcases List.mem_append.mp hs' with hs'' | hs''
              · rcases List.mem_singleton.mp hs'' with rfl
                exact Or.inl rfl
              · cases chartOpt with
                | none => cases hs''
                | some c =>
                  have hcs : s = c := by simpa using hs''
                  rw [hcs]
                  exact Or.inr (Or.inl (createChartFromTable_layout field tableData sec fi c hchart))
            · split at hs'
              · cases hs'
              · exact Or.inr (Or.inr (tablePhotoSlides_layout sec field fi _ s hs'))
  case h_2 =>
    rw [Except.ok.injEq] at h
    rw [← h] at hs
    cases hs

/-- Every slide a bullet field contributes is `imageLeftTextRight`. -/
lemma bulletFieldSlides_layout (sd : JSVal) (sec : FormSectionM) (field : FormFieldM) (fi : Nat) :
    ∀ s ∈ bulletFieldSlides sd sec field fi, s.layout = "imageLeftTextRight" := by
  intro s hs
  unfold bulletFieldSlides at hs
  dsimp only [] at hs
  split at hs
  · split at hs
    · cases hs
    · rcases List.mem_singleton.mp hs with rfl
      rfl
  · cases hs

/-- Every slide a photo field contributes is `photoGrid`. -/
lemma photoFieldSlides_layout (sd : JSVal) (sec : FormSectionM) (field : FormFieldM) (fi : Nat) :
    ∀ s ∈ photoFieldSlides sd sec field fi, s.layout = "photoGrid" := by
  intro s hs
  unfold photoFieldSlides at hs
  split at hs
  · split at hs
    · cases hs
    · exact fieldPhotoSlides_layout sec field fi _ s hs
  · cases hs

/-- Every slide the scalar/text group contributes is `imageLeftTextRight`. -/
lemma textFieldSlides_layout (sd : JSVal) (sec : FormSectionM) (textFields : List FormFieldM) :
    ∀ s ∈ textFieldSlides sd sec textFields, s.layout = "imageLeftTextRight" := by
  intro s hs
  unfold textFieldSlides at hs
  dsimp only [] at hs
  split at hs
  · cases hs
  · split at hs
    · cases hs
    · rcases List.mem_singleton.mp hs with rfl
      rfl

/-- Every per-section slide has one of the four per-section layouts; in
particular none is a `summary` or `title` slide. -/
lemma createSlidesForSection_layout (fd : FormData) (sec : FormSectionM) (i : Nat)
    (l : List ResolvedSlideM) (h : createSlidesForSection fd sec i = .ok l) :
    ∀ s ∈ l, s.layout = "twoColumn" ∨ s.layout = "chartFull" ∨ s.layout = "photoGrid" ∨
      s.layout = "imageLeftTextRight" := by
  intro s hs
  unfold createSlidesForSection at h
  dsimp only [] at h
  split at h
  · cases h
  case h_2 tableSlides htab =>
    rw [Except.ok.injEq] at h
    rw [← h] at hs
    rcases List.mem_append.mp hs with hs' | hs'
    · rcases List.mem_append.mp hs' with hs'' | hs''
      · rcases List.mem_append.mp hs'' with hs3 | hs3
        · rcases flatMapE_ok_mem _ _ _ htab s hs3 with ⟨e, _, lx, hfx, hsx⟩
          rcases tableFieldSlides_layout _ _ _ _ _ hfx s hsx with h1 | h1 | h1
          · exact Or.inl h1
          · exact Or.inr (Or.inl h1)
          · exact Or.inr (Or.inr (Or.inl h1))
        · rcases List.mem_flatMap.mp hs3 with ⟨e, _, hsx⟩
          exact Or.inr (Or.inr (Or.inr (bulletFieldSlides_layout _ _ _ _ s hsx)))
      · rcases List.mem_flatMap.mp hs'' with ⟨e, _, hsx⟩
        exact Or.inr (Or.inr (Or.inl (photoFieldSlides_layout _ _ _ _ s hsx)))
    · exact Or.inr (Or.inr (Or.inr (textFieldSlides_layout _ _ _ s hs')))

/-- The summary gate: a successful `createSummarySlide` returns the
summary slide exactly when the collected KPI count lies in `[2, 4]`. -/
lemma createSummarySlide_gate (t : ReportTemplateM) (fd : FormData) (kpis : List KpiM)
    (summaryOpt : Option ResolvedSlideM)
    (hk : collectKpisE t fd = .ok kpis) (h : createSummarySlide t fd = .ok summaryOpt) :
    summaryOpt =
      (if 2 ≤ kpis.length && kpis.length ≤ 4 then
        some
          { id := "summary-" ++ t.key
            title := "Executive Summary"
            layout := "summary"
            data := .kpiD (kpis.take 4)
            generativeIconPrompt :=
              some "A minimalist icon representing key performance metrics and summary statistics"
            suggestedChart := none }
      else none) := by
  unfold createSummarySlide at h
  rw [hk] at h
  split at h
  next e hc => cases hc
  next kpis2 hc =>
    rw [Except.ok.injEq] at hc
    subst hc
    split at h
    next hcond =>
      rw [Except.ok.injEq] at h
      rw [← h, if_pos hcond]
    next hcond =>
      rw [Except.ok.injEq] at h
      rw [← h, if_neg hcond]

/-- `flatMapE` over a single element. -/
lemma flatMapE_singleton {α β : Type} (f : α → Except Unit (List β)) (x : α) :
    flatMapE f [x] =
      match f x with
      | .error e => .error e
      | .ok ys => .ok ys := by
  rw [flatMapE_cons]
  cases hfx : f x <;> simp [flatMapE]

/-- The `break`-terminated KPI extraction yields at most one KPI. -/
lemma extractFirstKpiE_length : ∀ (idxs : List Nat) (row : JSVal) (headers : List String)
    (label : String) (l : List KpiM),
    extractFirstKpiE row headers label idxs = .ok l → l.length ≤ 1 := by
  intro idxs
  induction idxs with
  | nil =>
    intro row headers label l h
    unfold extractFirstKpiE at h
    rw [Except.ok.injEq] at h
    rw [← h]
    exact Nat.zero_le 1
  | cons i is ih =>
    intro row headers label l h
    unfold extractFirstKpiE at h
    split at h
    · cases h
    · split at h
      · rw [Except.ok.injEq] at h
        rw [← h]
        exact Nat.le_refl 1
      · exact ih row headers label l h

/-- A single table field contributes at most one KPI to the summary scan. -/
lemma kpisForFieldE_le_one (sd : JSVal) (field : FormFieldM) (l : List KpiM)
    (h : kpisForFieldE sd field = .ok l) : l.length ≤ 1 := by
  unfold kpisForFieldE at h
  split at h
  · split at h
    · split at h
      · cases h
      · rw [Except.ok.injEq] at h
        rw [← h]
        exact Nat.zero_le 1
      · exact extractFirstKpiE_length _ _ _ _ _ h
    · rw [Except.ok.injEq] at h
      rw [← h]
      exact Nat.zero_le 1
  · rw [Except.ok.injEq] at h
    rw [← h]
    exact Nat.zero_le 1

/-- `Array.prototype.find` returns the first match: every earlier element
fails the predicate. -/
lemma findE_first {α : Type} (p : α → Except Unit Bool) :
    ∀ (xs : List α) (x : α), findE p xs = .ok (some x) →
      ∃ n, xs.get? n = some x ∧ p x = .ok true ∧
        ∀ m y, m < n → xs.get? m = some y → p y = .ok false := by
  intro xs
  induction xs with
  | nil =>
    intro x h
    unfold findE at h
    rw [Except.ok.injEq] at h
    cases h
  | cons a t ih =>
    intro x h
    unfold findE at h
    split at h
    · cases h
    case h_2 hpa =>
      rw [Except.ok.injEq, Option.some.injEq] at h
      subst h
      exact ⟨0, rfl, hpa, fun m y hm _ => absurd hm (Nat.not_lt_zero m)⟩
    case h_3 hpa =>
      rcases ih x h with ⟨n, hget, hpx, hprev⟩
      refine ⟨n + 1, hget, hpx, ?_⟩
      intro m y hm hgm
      cases m with
      | zero =>
        rw [show ((a :: t).get? 0 = some a) from rfl, Option.some.injEq] at hgm
        rw [← hgm]
        exact hpa
      | succ k => exact hprev k y (Nat.lt_of_succ_lt_succ hm) hgm

/-- The KPI extraction takes the first later column whose value
normalizes: on success with one KPI, that KPI's value comes from the first
normalizing index, and every earlier index failed to normalize; on success
with no KPI, every index failed. -/
lemma extractFirstKpiE_first : ∀ (idxs : List Nat) (row : JSVal) (headers : List String)
    (label : String) (l : List KpiM),
    extractFirstKpiE row headers label idxs = .ok l →
    (l = [] → ∀ j i, idxs.get? j = some i →
      ∃ v, getColumnValueRaw row (headers.get? i) i = .ok v ∧ normalizeNumber v = none) ∧
    (∀ kpi, l = [kpi] →
      ∃ j i v num, idxs.get? j = some i ∧
        getColumnValueRaw row (headers.get? i) i = .ok v ∧
        normalizeNumber v = some num ∧
        kpi = ⟨num, if label.isEmpty then (headers.get? i).getD "" else label⟩ ∧
        ∀ j' i', j' < j → idxs.get? j' = some i' →
          ∃ v', getColumnValueRaw row (headers.get? i') i' = .ok v' ∧
            normalizeNumber v' = none) := by
  intro idxs
  induction idxs with
  | nil =>
    intro row headers label l h
    unfold extractFirstKpiE at h
    rw [Except.ok.injEq] at h
    constructor
    · intro _ j i hj
      cases hj
    · intro kpi hkpi
      rw [← h] at hkpi
      cases hkpi
  | cons i is ih =>
    intro row headers label l h
    unfold extractFirstKpiE at h
    split at h
    · cases h
    case h_2 v hv =>
      split at h
      case h_1 num hnum =>
        rw [Except.ok.injEq] at h
        constructor
        · intro hl
          rw [← h] at hl
          cases hl
        · intro kpi hkpi
          rw [← h] at hkpi
          rw [List.cons.injEq] at hkpi
          refine ⟨0, i, v, num, rfl, hv, hnum, hkpi.1.symm, ?_⟩
          intro j' i' hj' _
          exact absurd hj' (Nat.not_lt_zero j')
      case h_2 hnum =>
        rcases ih row headers label l h with ⟨hnil, hone⟩
        constructor
        · intro hl j i' hj
          cases j with
          | zero =>
            rw [show ((i :: is).get? 0 = some i) from rfl, Option.some.injEq] at hj
            rw [← hj]
            exact ⟨v, hv, hnum⟩
          | succ k => exact hnil hl k i' hj
        · intro kpi hkpi
          rcases hone kpi hkpi with ⟨j, i1, v1, num1, hj, hv1, hnum1, hkpi1, hprev⟩
          refine ⟨j + 1, i1, v1, num1, hj, hv1, hnum1, hkpi1, ?_⟩
          intro j' i' hj' hgj'
          cases j' with
          | zero =>
            rw [show ((i :: is).get? 0 = some i) from rfl, Option.some.injEq] at hgj'
            rw [← hgj']
            exact ⟨v, hv, hnum⟩
          | succ k => exact hprev k i' (Nat.lt_of_succ_lt_succ hj') hgj'

/-- Page count of the 4-image pagination. -/
lemma chunk4_length : ∀ (l : List JSVal), (chunk4 l).length = (l.length + 3) / 4
  | [] => rfl
  | [_] => by simp [chunk4]
  | [_, _] => by simp [chunk4]
  | [_, _, _] => by simp [chunk4]
  | a :: b :: c :: d :: rest => by
    rw [show chunk4 (a :: b :: c :: d :: rest) = [a, b, c, d] :: chunk4 rest from rfl,
      List.length_cons, chunk4_length rest]
    simp only [List.length_cons]
    omega

/-- The `k`-th page of the 4-image pagination is `slice(4k, 4k + 4)`. -/
lemma chunk4_get? : ∀ (l : List JSVal) (k : Nat), k < (chunk4 l).length →
    (chunk4 l).get? k = some ((l.drop (4 * k)).take 4)
  | [], k, h => by simp [chunk4] at h
  | [a], 0, _ => rfl
  | [a], k + 1, h => by simp [chunk4] at h
  | [a, b], 0, _ => rfl
  | [a, b], k + 1, h => by simp [chunk4] at h
  | [a, b, c], 0, _ => rfl
  | [a, b, c], k + 1, h => by simp [chunk4] at h
  | a :: b :: c :: d :: rest, 0, _ => rfl
  | a :: b :: c :: d :: rest, k + 1, h => by
    have h' : k < (chunk4 rest).length := by
      rw [show chunk4 (a :: b :: c :: d :: rest) = [a, b, c, d] :: chunk4 rest from rfl,
        List.length_cons] at h
      omega
    have ih := chunk4_get? rest k h'
    show (chunk4 rest).get? k = _
    rw [ih]
    have hdrop : (a :: b :: c :: d :: rest).drop (4 * (k + 1)) = rest.drop (4 * k) := by
      rw [Nat.mul_succ]
      rfl
    rw [hdrop]

/-- Page count of the slides a photo field paginates into. -/
lemma fieldPhotoSlides_length (sec : FormSectionM) (field : FormFieldM) (fi : Nat)
    (photoData : List JSVal) :
    (fieldPhotoSlides sec field fi photoData).length = (photoData.length + 3) / 4 := by
  unfold fieldPhotoSlides
  rw [List.length_map, List.enum_length, chunk4_length]

/-- The `k`-th slide a photo field paginates into. -/
lemma fieldPhotoSlides_get? (sec : FormSectionM) (field : FormFieldM) (fi : Nat)
    (photoData : List JSVal) (k : Nat) (hk : k < (fieldPhotoSlides sec field fi photoData).length) :
    (fieldPhotoSlides sec field fi photoData).get? k = some
      { id := sec.id ++ "-photos-" ++ toString fi ++ "-page" ++ toString (k + 1)
        title := labelOrTitle field sec ++
          (if (photoData.length + 3) / 4 > 1 then
            " (" ++ toString (k + 1) ++ "/" ++ toString ((photoData.length + 3) / 4) ++ ")"
          else "")
        layout := "photoGrid"
        data := .imagesD ((photoData.drop (4 * k)).take 4)
        generativeIconPrompt := none
        suggestedChart := none } := by
  rw [fieldPhotoSlides_length] at hk
  unfold fieldPhotoSlides
  rw [List.get?_map, List.enum_get?, chunk4_get? photoData k (by rw [chunk4_length]; exact hk)]
  rfl

/-- The gallery template resolves to the title slide followed by the
paginated photo pages (no chart, no summary, no text slides). -/
lemma singlePhotoResolve (photos : List JSVal) (hne : photos ≠ []) :
    resolveE galleryTemplate (galleryData photos) =
      .ok (createTitleSlide galleryTemplate (galleryData photos) ::
        fieldPhotoSlides gallerySec galleryField 0 photos) := by
  cases photos with
  | nil => exact absurd rfl hne
  | cons p rest =>
    simp [resolveE, sectionStepE, createSlidesForSection, createSummarySlide, collectKpisE,
      kpisForFieldE, createPhotoGridSlide, flatMapE, photoFieldSlides, textFieldSlides,
      fdGet, orEmptyObj, jsTruthy, jsGetProp, galleryTemplate, gallerySec, galleryField,
      galleryData]

/-- The budget template resolves through its single table field: the
resolver output is the title slide, the table field's slides, and the
optional summary slide. -/
lemma budgetResolve_eq (headers : List String) (td : List JSVal) :
    resolveE (budgetTemplate headers) (budgetData td) =
      (match tableFieldSlides (JSVal.obj [("tbl", JSVal.arr td)]) (budgetSec headers)
          (budgetField headers) 0 with
      | .error e => .error e
      | .ok ts =>
        match createSummarySlide (budgetTemplate headers) (budgetData td) with
        | .error e => .error e
        | .ok so =>
          .ok (createTitleSlide (budgetTemplate headers) (budgetData td) :: (ts ++ so.toList))) := by
  cases hts : tableFieldSlides (JSVal.obj [("tbl", JSVal.arr td)]) (budgetSec headers)
      (budgetField headers) 0 with
  | error e =>
    simp only [budgetTemplate, budgetSec, budgetData, budgetField] at hts
    simp [resolveE, sectionStepE, createSlidesForSection, flatMapE, createPhotoGridSlide,
      budgetTemplate, budgetSec, budgetData, budgetField, fdGet, orEmptyObj, jsTruthy,
      textFieldSlides, List.enum, List.enumFrom, hts]
  | ok ts =>
    cases hso : createSummarySlide (budgetTemplate headers) (budgetData td) with
    | error e =>
      simp only [budgetTemplate, budgetSec, budgetData, budgetField] at hts hso
      simp [resolveE, sectionStepE, createSlidesForSection, flatMapE, createPhotoGridSlide,
        budgetTemplate, budgetSec, budgetData, budgetField, fdGet, orEmptyObj, jsTruthy,
        textFieldSlides, List.enum, List.enumFrom, hts, hso]
    | ok so =>
      simp only [budgetTemplate, budgetSec, budgetData, budgetField] at hts hso
      simp [resolveE, sectionStepE, createSlidesForSection, flatMapE, createPhotoGridSlide,
        budgetTemplate, budgetSec, budgetData, budgetField, fdGet, orEmptyObj, jsTruthy,
        textFieldSlides, List.enum, List.enumFrom, hts, hso]

/-- One table field can produce at most one KPI, so the budget template
never gets a summary slide. -/
lemma budgetSummary_none (headers : List String) (td : List JSVal) (so : Option ResolvedSlideM)
    (hsum : createSummarySlide (budgetTemplate headers) (budgetData td) = .ok so) : so = none := by
  cases hkf : kpisForFieldE (JSVal.obj [("tbl", JSVal.arr td)]) (budgetField headers) with
  | error e =>
    have hc : collectKpisE (budgetTemplate headers) (budgetData td) = .error e := by
      simp [collectKpisE, budgetTemplate, budgetSec, budgetData, flatMapE, fdGet, orEmptyObj,
        jsTruthy, hkf]
    unfold createSummarySlide at hsum
    rw [hc] at hsum
    cases hsum
  | ok kl =>
    have hc : collectKpisE (budgetTemplate headers) (budgetData td) = .ok kl := by
      simp [collectKpisE, budgetTemplate, budgetSec, budgetData, flatMapE, fdGet, orEmptyObj,
        jsTruthy, hkf]
    unfold createSummarySlide at hsum
    rw [hc] at hsum
    have hle : kl.length ≤ 1 := kpisForFieldE_le_one _ _ _ hkf
    have hcond : (decide (2 ≤ kl.length) && decide (kl.length ≤ 4)) = false := by
      have h2 : ¬ 2 ≤ kl.length := by omega
      simp [h2]
    simp only [hcond, Bool.false_eq_true, if_false, Except.ok.injEq] at hsum
    exact hsum.symm

/-! ## Theorems -/

/-- C2: the claim that `resolve` runs to completion on every template and
form-data mapping is right about the intent (spec §7: never throw on
malformed input) but wrong about the code: on a table field whose declared
column list is empty while its form data holds a non-empty row, the
executive-summary scan evaluates `headers[0]` to `undefined`, and
`header.toLowerCase()` inside its column accessor throws a `TypeError`.
The embedding reaches the modelled throw (`.error`).  -/
theorem C2_empty_columns_throws :
    resolveE emptyColumnsTemplate emptyColumnsData = .error () := rfl

/-- C3 (counterexample): on the spec §8 end-to-end scenario the claim says
no chart slide is emitted; the code does emit one ("Offerings" survives
the aggregate filter, so one chartable point remains), immediately after
the table slide. -/
theorem C3_counterexample :
    (resolveE scenarioTemplate scenarioData).map (fun ss => ss.map (fun s => s.layout)) =
      .ok ["title", "twoColumn", "chartFull"] := rfl

/-- C3 (amended): the scenario resolves to exactly the title slide
(title "Quarterly Report", subtitle "Q1 2025", author "Jane Doe"), the
two-column table slide, and a pie-chart slide with the single point
("Offerings", 1200); no summary slide (only 1 KPI candidate). -/
theorem C3_end_to_end_amended :
    resolveE scenarioTemplate scenarioData = .ok scenarioSlides := rfl

/-- C9: determinism — for fixed `(template, formData)` two invocations of
`resolve` return identical slide lists: same length and the same slide at
every position.  The embedding is a pure function of its two arguments,
so any two successful runs agree. -/
theorem C9_determinism (t : ReportTemplateM) (fd : FormData) (s1 s2 : List ResolvedSlideM)
    (h1 : resolveE t fd = .ok s1) (h2 : resolveE t fd = .ok s2) :
    s1 = s2 ∧ s1.length = s2.length ∧ ∀ i, s1.get? i = s2.get? i := by
  rw [h1] at h2
  have he : s1 = s2 := by injection h2
  exact ⟨he, by rw [he], fun i => by rw [he]⟩

/-- C9 witness: the determinism theorem applied at the concrete scenario
input. -/
theorem C9_witness :
    scenarioSlides = scenarioSlides ∧ scenarioSlides.length = scenarioSlides.length ∧
      ∀ i, scenarioSlides.get? i = scenarioSlides.get? i :=
  C9_determinism scenarioTemplate scenarioData scenarioSlides scenarioSlides rfl rfl

/-- C5: the numeric normalizer — `null`/absent input is `NaN`; a value
fully wrapped in parentheses yields the negation of the absolute value of
the number parsed from the cleaned string (parentheses take sign
precedence over any explicit sign, witnessed by `"(-5)" ↦ -5`); currency
symbols, commas, whitespace and parentheses are stripped before parsing
(`cleanNumStr`); unparseable cleaned strings yield `NaN`.  Concretely:
`normalize("(1,234.50)") = -1234.50`, `normalize("$500") = 500`,
`normalize("") = NaN`, `normalize(null) = NaN`. -/
theorem C5_normalize_number :
    (normalizeNumber .null = none) ∧
    (∀ v : JSVal, v.isNull = false →
      parenWrappedStr (jsTrim (jsToString v)) = true →
      normalizeNumber v = (parseFloatDec (cleanNumStr (jsTrim (jsToString v)))).map DecNum.negAbs) ∧
    (∀ v : JSVal, v.isNull = false →
      parseFloatDec (cleanNumStr (jsTrim (jsToString v))) = none →
      normalizeNumber v = none) ∧
    (normalizeNumber (.str "(1,234.50)") = some ⟨-123450, 2⟩ ∧
      DecNum.toRat ⟨-123450, 2⟩ = -1234.5) ∧
    (normalizeNumber (.str "$500") = some ⟨500, 0⟩ ∧ DecNum.toRat ⟨500, 0⟩ = 500) ∧
    (normalizeNumber (.str "") = none) ∧
    (normalizeNumber (.str "(-5)") = some ⟨-5, 0⟩) := by
  refine ⟨rfl, ?_, ?_, ⟨rfl, by norm_num [DecNum.toRat]⟩, ⟨rfl, by norm_num [DecNum.toRat]⟩, rfl, rfl⟩
  · intro v hv hp
    rw [normalizeNumber_eq v hv]
    cases hx : parseFloatDec (cleanNumStr (jsTrim (jsToString v))) with
    | none => simp
    | some q => simp [hp]
  · intro v hv hx
    rw [normalizeNumber_eq v hv, hx]

/-- C5 witness: the parenthesized branch of the normalizer applied at the
concrete input `"(7)"`. -/
theorem C5_witness :
    normalizeNumber (.str "(7)") =
      (parseFloatDec (cleanNumStr (jsTrim (jsToString (.str "(7)"))))).map DecNum.negAbs :=
  C5_normalize_number.2.1 (.str "(7)") rfl rfl

/-- C4: the tiered column accessor — for every row object (with the unique
keys JS objects have), the resolved value is decided by the first
applicable tier: (1) exact key match; (2) the key equal to the header
under case folding, when exactly one such key exists; (3) the key at the
header's index after dropping the reserved `photos`/`tooltips` keys, in
key order; (4) the empty value (`null` for the raw accessor; the display
accessor renders every raw result through `String(· ?? '')`).  Concretely,
`{"Amount": 10}` with header `"amount"` resolves to `10`, and
`{"col1": "X", "col2": 5}` with headers `["Label","Value"]` resolves to
`"X"` at index 0 and `5` at index 1. -/
theorem C4_column_accessor_tiering :
    (∀ (row : JSVal) (h : String) (i : Nat),
      getColumnValue row h i = (getColumnValueRaw row (some h) i).map jsDisplay) ∧
    (∀ (kvs : List (String × JSVal)) (h : String) (i : Nat) (v : JSVal),
      (kvs.map Prod.fst).Nodup → (h, v) ∈ kvs →
      getColumnValueRaw (.obj kvs) (some h) i = .ok v) ∧
    (∀ (kvs : List (String × JSVal)) (h : String) (i : Nat) (k : String) (v : JSVal),
      (kvs.map Prod.fst).Nodup →
      h ∉ kvs.map Prod.fst →
      (k, v) ∈ kvs → lowerStr k = lowerStr h →
      (∀ k' ∈ kvs.map Prod.fst, lowerStr k' = lowerStr h → k' = k) →
      getColumnValueRaw (.obj kvs) (some h) i = .ok v) ∧
    (∀ (kvs : List (String × JSVal)) (h : String) (i : Nat) (dk : String) (v : JSVal),
      (kvs.map Prod.fst).Nodup →
      h ∉ kvs.map Prod.fst →
      (∀ k' ∈ kvs.map Prod.fst, lowerStr k' ≠ lowerStr h) →
      ((kvs.map Prod.fst).filter (fun k => k != "tooltips" && k != "photos")).get? i = some dk →
      (dk, v) ∈ kvs →
      getColumnValueRaw (.obj kvs) (some h) i = .ok v) ∧
    (∀ (kvs : List (String × JSVal)) (h : String) (i : Nat),
      h ∉ kvs.map Prod.fst →
      (∀ k' ∈ kvs.map Prod.fst, lowerStr k' ≠ lowerStr h) →
      ((kvs.map Prod.fst).filter (fun k => k != "tooltips" && k != "photos")).get? i = none →
      getColumnValueRaw (.obj kvs) (some h) i = .ok .null) ∧
    (getColumnValueRaw (.obj [("Amount", .num 10)]) (some "amount") 0 = .ok (.num 10)) ∧
    (getColumnValueRaw (.obj [("col1", .str "X"), ("col2", .num 5)]) (some "Label") 0 =
      .ok (.str "X")) ∧
    (getColumnValueRaw (.obj [("col1", .str "X"), ("col2", .num 5)]) (some "Value") 1 =
      .ok (.num 5)) := by
  refine ⟨?_, ?_, ?_, ?_, ?_, rfl, rfl, rfl⟩
  · intro row h i
    cases row with
    | null => rfl
    | str s =>
      simp only [getColumnValue, getColumnValueRaw]
      split
      · rfl
      · split
        · rfl
        · split <;> rfl
    | num n =>
      simp only [getColumnValue, getColumnValueRaw]
      split
      · rfl
      · split
        · rfl
        · split <;> rfl
    | arr xs =>
      simp only [getColumnValue, getColumnValueRaw]
      split
      · rfl
      · split
        · rfl
        · split <;> rfl
    | obj kvs =>
      simp only [getColumnValue, getColumnValueRaw]
      split
      · rfl
      · split
        · rfl
        · split <;> rfl
  · intro kvs h i v hnd hmem
    have hown : jsHasOwn (.obj kvs) h = true :=
      (jsHasOwn_obj_iff kvs h).mpr (List.mem_map.mpr ⟨(h, v), hmem, rfl⟩)
    simp only [getColumnValueRaw, hown, if_true]
    rw [jsGetProp_obj_eq kvs h v hnd hmem]
  · intro kvs h i k v hnd hnot hmem hlow huniq
    have hown : jsHasOwn (.obj kvs) h = false := by
      rcases hb : jsHasOwn (.obj kvs) h with _ | _
      · rfl
      · exact absurd ((jsHasOwn_obj_iff kvs h).mp hb) hnot
    have hkmem : k ∈ kvs.map Prod.fst := List.mem_map.mpr ⟨(k, v), hmem, rfl⟩
    have hfind : (jsKeys (.obj kvs)).find? (fun k' => lowerStr k' == lowerStr h) = some k := by
      show (kvs.map Prod.fst).find? (fun k' => lowerStr k' == lowerStr h) = some k
      exact find?_eq_some_of_unique _ _ k hkmem (by simpa using hlow)
        (fun y hy hp => huniq y hy (by simpa using hp))
    simp only [getColumnValueRaw, hown, Bool.false_eq_true, if_false, hfind]
    rw [jsGetProp_obj_eq kvs k v hnd hmem]
  · intro kvs h i dk v hnd hnot hnone hget hmem
    have hown : jsHasOwn (.obj kvs) h = false := by
      rcases hb : jsHasOwn (.obj kvs) h with _ | _
      · rfl
      · exact absurd ((jsHasOwn_obj_iff kvs h).mp hb) hnot
    have hfind : (jsKeys (.obj kvs)).find? (fun k' => lowerStr k' == lowerStr h) = none := by
      show (kvs.map Prod.fst).find? (fun k' => lowerStr k' == lowerStr h) = none
      rw [List.find?_eq_none]
      intro x hx
      simpa using hnone x hx
    simp only [getColumnValueRaw, hown, Bool.false_eq_true, if_false, hfind]
    show (match ((jsKeys (.obj kvs)).filter (fun k => k != "tooltips" && k != "photos")).get? i with
      | some dk => Except.ok (jsGetProp (.obj kvs) dk)
      | none => Except.ok .null) = Except.ok v
    have heq : (jsKeys (.obj kvs)).filter (fun k => k != "tooltips" && k != "photos") =
        (kvs.map Prod.fst).filter (fun k => k != "tooltips" && k != "photos") := rfl
    rw [heq, hget]
    exact congrArg Except.ok (jsGetProp_obj_eq kvs dk v hnd hmem)
  · intro kvs h i hnot hnone hget
    have hown : jsHasOwn (.obj kvs) h = false := by
      rcases hb : jsHasOwn (.obj kvs) h with _ | _
      · rfl
      · exact absurd ((jsHasOwn_obj_iff kvs h).mp hb) hnot
    have hfind : (jsKeys (.obj kvs)).find? (fun k' => lowerStr k' == lowerStr h) = none := by
      show (kvs.map Prod.fst).find? (fun k' => lowerStr k' == lowerStr h) = none
      rw [List.find?_eq_none]
      intro x hx
      simpa using hnone x hx
    simp only [getColumnValueRaw, hown, Bool.false_eq_true, if_false, hfind]
    show (match ((jsKeys (.obj kvs)).filter (fun k => k != "tooltips" && k != "photos")).get? i with
      | some dk => Except.ok (jsGetProp (.obj kvs) dk)
      | none => Except.ok .null) = Except.ok .null
    have heq : (jsKeys (.obj kvs)).filter (fun k => k != "tooltips" && k != "photos") =
        (kvs.map Prod.fst).filter (fun k => k != "tooltips" && k != "photos") := rfl
    rw [heq, hget]

/-- C4 witness: the exact-match tier applied at the concrete row
`{"Amount": 10}` with header `"Amount"`. -/
theorem C4_witness :
    getColumnValueRaw (.obj [("Amount", .num 10)]) (some "Amount") 0 = .ok (.num 10) :=
  C4_column_accessor_tiering.2.1 [("Amount", .num 10)] "Amount" 0 (.num 10)
    (by decide) (List.mem_singleton.mpr rfl)

/-- C8: every successful `resolve` run puts the title slide first — with
layout `title`, the template's display title verbatim as its title, and
subtitle/author drawn from the `header` form data through the
`quarter`/`reportingQuarter` and `preparedBy`/`reportingLeader` alias
chains, defaulting to the empty string when absent — and the per-section
slides are exactly those of the sections whose id is neither `header` nor
`signatures`, walked in declared order (followed only by the optional
summary slide). -/
theorem C8_title_and_reserved_sections (t : ReportTemplateM) (fd : FormData)
    (slides : List ResolvedSlideM) (h : resolveE t fd = .ok slides) :
    ∃ body summaryOpt,
      slides = createTitleSlide t fd :: (body ++ summaryOpt.toList) ∧
      flatMapE (fun sec => createSlidesForSection fd sec 0)
        (t.sections.filter (fun sec => !(sec.id == "header") && !(sec.id == "signatures"))) =
        .ok body ∧
      createSummarySlide t fd = .ok summaryOpt ∧
      (createTitleSlide t fd).layout = "title" ∧
      (createTitleSlide t fd).title = t.title ∧
      (createTitleSlide t fd).data = .titleD
        (jsOr (jsGetProp (orEmptyObj (fdGet fd "header")) "quarter")
          (jsOr (jsGetProp (orEmptyObj (fdGet fd "header")) "reportingQuarter") (.str "")))
        (jsOr (jsGetProp (orEmptyObj (fdGet fd "header")) "preparedBy")
          (jsOr (jsGetProp (orEmptyObj (fdGet fd "header")) "reportingLeader") (.str ""))) := by
  rcases resolveE_decomp t fd slides h with ⟨body, summaryOpt, hb, hs, he⟩
  exact ⟨body, summaryOpt, he, hb, hs, rfl, rfl, rfl⟩

/-- C8 witness: the decomposition applied at the concrete scenario input. -/
theorem C8_witness :
    ∃ body summaryOpt,
      scenarioSlides = createTitleSlide scenarioTemplate scenarioData :: (body ++ summaryOpt.toList) ∧
      flatMapE (fun sec => createSlidesForSection scenarioData sec 0)
        (scenarioTemplate.sections.filter
          (fun sec => !(sec.id == "header") && !(sec.id == "signatures"))) = .ok body ∧
      createSummarySlide scenarioTemplate scenarioData = .ok summaryOpt ∧
      (createTitleSlide scenarioTemplate scenarioData).layout = "title" ∧
      (createTitleSlide scenarioTemplate scenarioData).title = scenarioTemplate.title ∧
      (createTitleSlide scenarioTemplate scenarioData).data = .titleD
        (jsOr (jsGetProp (orEmptyObj (fdGet scenarioData "header")) "quarter")
          (jsOr (jsGetProp (orEmptyObj (fdGet scenarioData "header")) "reportingQuarter") (.str "")))
        (jsOr (jsGetProp (orEmptyObj (fdGet scenarioData "header")) "preparedBy")
          (jsOr (jsGetProp (orEmptyObj (fdGet scenarioData "header")) "reportingLeader") (.str ""))) :=
  C8_title_and_reserved_sections scenarioTemplate scenarioData scenarioSlides rfl

/-- C1 (counterexample): with exactly 5 discovered KPIs the claim demands a
summary slide truncated to the first 4; the code's `2 ≤ n && n ≤ 4` gate
emits no summary slide at all (the `slice(0, 4)` truncation sits inside
the gate and never fires). -/
theorem C1_counterexample :
    (collectKpisE (kpiTemplate 5) (kpiData 5)).map List.length = .ok 5 ∧
    (resolveE (kpiTemplate 5) (kpiData 5)).map
      (fun ss => ss.all (fun s => s.layout != "summary")) = .ok true :=
  ⟨rfl, rfl⟩

/-- C1 (amended): for every (template, formData), if the KPI discovery
scan collects exactly 1 KPI, resolve emits no summary slide; if it
collects exactly 2, resolve emits a summary slide carrying those 2 KPIs;
if it collects 5 or more, resolve emits no summary slide (not a truncated
one — the 2-to-4 gate excludes it). -/
theorem C1_summary_gating_amended (t : ReportTemplateM) (fd : FormData)
    (slides : List ResolvedSlideM) (kpis : List KpiM)
    (h : resolveE t fd = .ok slides) (hk : collectKpisE t fd = .ok kpis) :
    (kpis.length = 1 → ∀ s ∈ slides, s.layout ≠ "summary") ∧
    (kpis.length = 2 → ∃ s ∈ slides, s.layout = "summary" ∧ s.data = .kpiD kpis) ∧
    (5 ≤ kpis.length → ∀ s ∈ slides, s.layout ≠ "summary") := by
  rcases resolveE_decomp t fd slides h with ⟨body, summaryOpt, hb, hsum, he⟩
  have hso := createSummarySlide_gate t fd kpis summaryOpt hk hsum
  have hbody : ∀ s ∈ body, s.layout ≠ "summary" := by
    intro s hs
    rcases flatMapE_ok_mem _ _ _ hb s hs with ⟨sec, _, lx, hfx, hsx⟩
    rcases createSlidesForSection_layout fd sec 0 lx hfx s hsx with h1 | h1 | h1 | h1 <;>
      simp [h1]
  refine ⟨?_, ?_, ?_⟩
  · intro h1 s hs
    have hnone : summaryOpt = none := by
      rw [hso, h1]
      rfl
    rw [he, hnone] at hs
    rcases List.mem_cons.mp hs with rfl | hs'
    · simp [createTitleSlide]
    · exact hbody s (by simpa using hs')
  · intro h2
    have hsome : summaryOpt = some
        { id := "summary-" ++ t.key
          title := "Executive Summary"
          layout := "summary"
          data := .kpiD (kpis.take 4)
          generativeIconPrompt :=
            some "A minimalist icon representing key performance metrics and summary statistics"
          suggestedChart := none } := by
      rw [hso, h2]
      rfl
    have htake : kpis.take 4 = kpis := List.take_of_length_le (by rw [h2]; norm_num)
    rw [he, hsome]
    refine ⟨{ id := "summary-" ++ t.key
              title := "Executive Summary"
              layout := "summary"
              data := .kpiD (kpis.take 4)
              generativeIconPrompt :=
                some "A minimalist icon representing key performance metrics and summary statistics"
              suggestedChart := none }, ?_, rfl, ?_⟩
    · exact List.mem_cons_of_mem _ (List.mem_append.mpr (Or.inr (List.mem_singleton.mpr rfl)))
    · rw [htake]
  · intro h5 s hs
    have hnone : summaryOpt = none := by
      rw [hso]
      have : (decide (2 ≤ kpis.length) && decide (kpis.length ≤ 4)) = false := by
        have : ¬ kpis.length ≤ 4 := by omega
        simp [this]
      simp only [this, Bool.false_eq_true, if_false]
    rw [he, hnone] at hs
    rcases List.mem_cons.mp hs with rfl | hs'
    · simp [createTitleSlide]
    · exact hbody s (by simpa using hs')

/-- C10: each table field contributes at most one KPI to the
executive-summary scan.  The scan of one field equals: find the first row
(in stored order) whose first resolved column value case-insensitively
contains "total", "surplus" or "deficit" (`findE`/`isTotalRowE`), then
take the first subsequent declared column whose value normalizes to a
number (`extractFirstKpiE`); `findE` is characterized as first-match, and
the extraction as first-normalizing-column, so later qualifying rows and
later numeric columns contribute nothing. -/
theorem C10_at_most_one_kpi_per_table :
    (∀ (sectionData : JSVal) (field : FormFieldM) (l : List KpiM),
      kpisForFieldE sectionData field = .ok l → l.length ≤ 1) ∧
    (∀ (sectionData : JSVal) (field : FormFieldM) (headers : List String) (tableData : List JSVal),
      field.type = FieldTypeM.table → field.columns = some headers →
      jsGetProp sectionData field.id = .arr tableData →
      kpisForFieldE sectionData field =
        (match findE (isTotalRowE headers) tableData with
         | .error e => .error e
         | .ok none => .ok []
         | .ok (some totalRow) =>
             extractFirstKpiE totalRow headers field.label (List.range' 1 (headers.length - 1)))) ∧
    (∀ (xs : List JSVal) (x : JSVal) (headers : List String),
      findE (isTotalRowE headers) xs = .ok (some x) →
      ∃ n, xs.get? n = some x ∧ isTotalRowE headers x = .ok true ∧
        ∀ m y, m < n → xs.get? m = some y → isTotalRowE headers y = .ok false) ∧
    (∀ (idxs : List Nat) (row : JSVal) (headers : List String) (label : String) (l : List KpiM),
      extractFirstKpiE row headers label idxs = .ok l →
      (l = [] → ∀ j i, idxs.get? j = some i →
        ∃ v, getColumnValueRaw row (headers.get? i) i = .ok v ∧ normalizeNumber v = none) ∧
      (∀ kpi, l = [kpi] →
        ∃ j i v num, idxs.get? j = some i ∧
          getColumnValueRaw row (headers.get? i) i = .ok v ∧
          normalizeNumber v = some num ∧
          kpi = ⟨num, if label.isEmpty then (headers.get? i).getD "" else label⟩ ∧
          ∀ j' i', j' < j → idxs.get? j' = some i' →
            ∃ v', getColumnValueRaw row (headers.get? i') i' = .ok v' ∧
              normalizeNumber v' = none)) := by
  refine ⟨?_, ?_, ?_, ?_⟩
  · intro sd field l h
    exact kpisForFieldE_le_one sd field l h
  · intro sd field headers tableData ht hc hg
    unfold kpisForFieldE
    rw [ht, hc]
    dsimp only []
    rw [hg]
  · intro xs x headers h
    exact findE_first (isTotalRowE headers) xs x h
  · intro idxs row headers label l h
    exact extractFirstKpiE_first idxs row headers label l h

/-- C7: photo pagination — for every non-empty photo-collection field with
`n` images, `resolve` emits exactly `⌈n/4⌉` photo-grid slides for that
field, the `k`-th carrying images `4(k-1)+1 .. min(4k, n)` in stored
order; with more than one page each title carries the `"(k/total)"`
indicator, and with exactly one page no indicator is added (the `if`
appends the empty string). -/
theorem C7_photo_pagination (photos : List JSVal) (hne : photos ≠ []) :
    ∃ pages,
      resolveE galleryTemplate (galleryData photos) =
        .ok (createTitleSlide galleryTemplate (galleryData photos) :: pages) ∧
      pages.length = (photos.length + 3) / 4 ∧
      ∀ k, k < pages.length → pages.get? k = some
        { id := "gallery-photos-0-page" ++ toString (k + 1)
          title := "Event Photos" ++
            (if (photos.length + 3) / 4 > 1 then
              " (" ++ toString (k + 1) ++ "/" ++ toString ((photos.length + 3) / 4) ++ ")"
            else "")
          layout := "photoGrid"
          data := .imagesD ((photos.drop (4 * k)).take 4)
          generativeIconPrompt := none
          suggestedChart := none } := by
  refine ⟨fieldPhotoSlides gallerySec galleryField 0 photos, singlePhotoResolve photos hne,
    fieldPhotoSlides_length gallerySec galleryField 0 photos, ?_⟩
  intro k hk
  rw [fieldPhotoSlides_get? gallerySec galleryField 0 photos k hk]
  rfl

/-- C7 witness: nine images paginate into pages of sizes 4, 4, 1 with
indicators (1/3), (2/3), (3/3). -/
theorem C7_witness :
    ∃ pages,
      resolveE galleryTemplate (galleryData
          [.str "i1", .str "i2", .str "i3", .str "i4", .str "i5",
           .str "i6", .str "i7", .str "i8", .str "i9"]) =
        .ok (createTitleSlide galleryTemplate (galleryData
          [.str "i1", .str "i2", .str "i3", .str "i4", .str "i5",
           .str "i6", .str "i7", .str "i8", .str "i9"]) :: pages) ∧
      pages.length = (([JSVal.str "i1", .str "i2", .str "i3", .str "i4", .str "i5",
          .str "i6", .str "i7", .str "i8", .str "i9"].length + 3) / 4) ∧
      ∀ k, k < pages.length → pages.get? k = some
        { id := "gallery-photos-0-page" ++ toString (k + 1)
          title := "Event Photos" ++
            (if (([JSVal.str "i1", .str "i2", .str "i3", .str "i4", .str "i5",
                .str "i6", .str "i7", .str "i8", .str "i9"].length + 3) / 4) > 1 then
              " (" ++ toString (k + 1) ++ "/" ++
                toString (([JSVal.str "i1", .str "i2", .str "i3", .str "i4", .str "i5",
                  .str "i6", .str "i7", .str "i8", .str "i9"].length + 3) / 4) ++ ")"
            else "")
          layout := "photoGrid"
          data := .imagesD (([JSVal.str "i1", .str "i2", .str "i3", .str "i4", .str "i5",
            .str "i6", .str "i7", .str "i8", .str "i9"].drop (4 * k)).take 4)
          generativeIconPrompt := none
          suggestedChart := none } :=
  C7_photo_pagination
    [.str "i1", .str "i2", .str "i3", .str "i4", .str "i5",
     .str "i6", .str "i7", .str "i8", .str "i9"]
    (fun h => List.noConfusion h)

/-- C6: chart derivation from a table — for a table field with at least 2
declared columns, the first column index (scanning from 1) with a
normalizing value is chosen; the `(label, value)` pairs surviving the
filter (non-empty label, non-NaN value, label not an aggregate marker)
decide the outcome: no numeric column, no surviving pair, or all surviving
values zero means no chart slide while the two-column table slide is still
emitted; otherwise a chart slide follows the table slide immediately, pie
with at most 5 points and bar with more. -/
theorem C6_chart_derivation (headers : List String) (td : List JSVal)
    (slides : List ResolvedSlideM)
    (hlen : 2 ≤ headers.length) (hne : td ≠ [])
    (h : resolveE (budgetTemplate headers) (budgetData td) = .ok slides) :
    ∃ colOpt, firstNumericColE td headers (List.range' 1 (headers.length - 1)) = .ok colOpt ∧
      (colOpt = none →
        (∀ s ∈ slides, s.layout ≠ "chartFull") ∧ ∃ s ∈ slides, s.layout = "twoColumn") ∧
      (∀ i, colOpt = some i →
        ∃ rawPairs, mapE (chartPairE headers i) td = .ok rawPairs ∧
          (((rawPairs.filter chartKeep).isEmpty ||
              (rawPairs.filter chartKeep).all (fun it => (it.2.getD ⟨0, 0⟩).isZero)) = true →
            (∀ s ∈ slides, s.layout ≠ "chartFull") ∧ ∃ s ∈ slides, s.layout = "twoColumn") ∧
          (((rawPairs.filter chartKeep).isEmpty ||
              (rawPairs.filter chartKeep).all (fun it => (it.2.getD ⟨0, 0⟩).isZero)) = false →
            ∃ tslide cslide rest,
              slides = createTitleSlide (budgetTemplate headers) (budgetData td) ::
                tslide :: cslide :: rest ∧
              tslide.layout = "twoColumn" ∧
              cslide.layout = "chartFull" ∧
              cslide.data = .chartD
                (if (rawPairs.filter chartKeep).length > 5 then "bar" else "pie")
                ((rawPairs.filter chartKeep).map Prod.fst)
                ((rawPairs.filter chartKeep).map (fun it => it.2.getD ⟨0, 0⟩)))) := by
  rw [budgetResolve_eq headers td] at h
  cases td with
  | nil => exact absurd rfl hne
  | cons r rs =>
  cases hts : tableFieldSlides (JSVal.obj [("tbl", JSVal.arr (r :: rs))]) (budgetSec headers)
      (budgetField headers) 0 with
  | error e => rw [hts] at h; cases h
  | ok ts =>
  rw [hts] at h
  cases hso : createSummarySlide (budgetTemplate headers) (budgetData (r :: rs)) with
  | error e => rw [hso] at h; cases h
  | ok so =>
  rw [hso] at h
  rw [Except.ok.injEq] at h
  have hsonone := budgetSummary_none headers (r :: rs) so hso
  subst hsonone
  unfold tableFieldSlides at hts
  dsimp only [budgetSec, budgetField] at hts
  rw [show jsGetProp (JSVal.obj [("tbl", JSVal.arr (r :: rs))]) "tbl" = JSVal.arr (r :: rs)
    from rfl] at hts
  simp only [List.isEmpty_cons, Bool.false_eq_true, if_false, Option.getD] at hts
  split at hts
  · cases hts
  case h_2 rows hrows =>
  split at hts
  · cases hts
  case h_2 chartOpt hchart =>
  split at hts
  · cases hts
  case h_2 photoVals hphot =>
  rw [Except.ok.injEq] at hts
  unfold createChartFromTable at hchart
  dsimp only [budgetField, budgetSec] at hchart
  rw [if_neg (by omega : ¬ headers.length < 2)] at hchart
  split at hchart
  · cases hchart
  case h_2 hcol =>
    rw [Except.ok.injEq] at hchart
    refine ⟨none, hcol, ?_, ?_⟩
    · intro _
      constructor
      · intro s hs
        rw [← h] at hs
        rcases List.mem_cons.mp hs with rfl | hs1
        · simp [createTitleSlide]
        · rw [← hts, ← hchart] at hs1
          simp only [Option.toList, List.append_nil] at hs1
          rcases List.mem_append.mp hs1 with hs2 | hs2
          · rcases List.mem_singleton.mp hs2 with rfl
            simp
          · split at hs2
            · cases hs2
            · have hpg := tablePhotoSlides_layout _ _ _ _ s hs2
              simp [hpg]
      · rw [← h, ← hts, ← hchart]
        simp only [Option.toList, List.append_nil]
        exact ⟨_, List.mem_cons_of_mem _ (List.mem_append.mpr
          (Or.inl (List.mem_singleton.mpr rfl))), rfl⟩
    · intro i hi
      cases hi
  case h_3 i hcol =>
    split at hchart
    · cases hchart
    case h_2 rawPairs hpairs =>
    refine ⟨some i, hcol, ?_, ?_⟩
    · intro hnone
      cases hnone
    · intro j hj
      rw [Option.some.injEq] at hj
      subst hj
      refine ⟨rawPairs, hpairs, ?_, ?_⟩
      · intro hcond
        rw [hcond] at hchart
        simp only [if_pos] at hchart
        rw [Except.ok.injEq] at hchart
        constructor
        · intro s hs
          rw [← h] at hs
          rcases List.mem_cons.mp hs with rfl | hs1
          · simp [createTitleSlide]
          · rw [← hts, ← hchart] at hs1
            simp only [Option.toList, List.append_nil] at hs1
            rcases List.mem_append.mp hs1 with hs2 | hs2
            · rcases List.mem_singleton.mp hs2 with rfl
              simp
            · split at hs2
              · cases hs2
              · have hpg := tablePhotoSlides_layout _ _ _ _ s hs2
                simp [hpg]
        · rw [← h, ← hts, ← hchart]
          simp only [Option.toList, List.append_nil]
          exact ⟨_, List.mem_cons_of_mem _ (List.mem_append.mpr
            (Or.inl (List.mem_singleton.mpr rfl))), rfl⟩
      · intro hcond
        rw [hcond] at hchart
        simp only [Bool.false_eq_true, if_false] at hchart
        rw [Except.ok.injEq] at hchart
        rw [← hts, ← hchart] at h
        simp only [Option.toList, List.append_nil, List.singleton_append, List.cons_append] at h
        refine ⟨_, _, _, h.symm, rfl, rfl, ?_⟩
        simp [List.length_map]

/-- C6 witness: the chart-derivation theorem applied at one chartable row
(one surviving pair, nonzero, so a pie chart follows the table slide). -/
theorem C6_witness :
    ∃ colOpt, firstNumericColE [chartWitnessRow] ["Item", "Amount"]
        (List.range' 1 (["Item", "Amount"].length - 1)) = .ok colOpt ∧
      (colOpt = none →
        (∀ s ∈ chartWitnessSlides, s.layout ≠ "chartFull") ∧
          ∃ s ∈ chartWitnessSlides, s.layout = "twoColumn") ∧
      (∀ i, colOpt = some i →
        ∃ rawPairs, mapE (chartPairE ["Item", "Amount"] i) [chartWitnessRow] = .ok rawPairs ∧
          (((rawPairs.filter chartKeep).isEmpty ||
              (rawPairs.filter chartKeep).all (fun it => (it.2.getD ⟨0, 0⟩).isZero)) = true →
            (∀ s ∈ chartWitnessSlides, s.layout ≠ "chartFull") ∧
              ∃ s ∈ chartWitnessSlides, s.layout = "twoColumn") ∧
          (((rawPairs.filter chartKeep).isEmpty ||
              (rawPairs.filter chartKeep).all (fun it => (it.2.getD ⟨0, 0⟩).isZero)) = false →
            ∃ tslide cslide rest,
              chartWitnessSlides = createTitleSlide (budgetTemplate ["Item", "Amount"])
                  (budgetData [chartWitnessRow]) :: tslide :: cslide :: rest ∧
              tslide.layout = "twoColumn" ∧
              cslide.layout = "chartFull" ∧
              cslide.data = .chartD
                (if (rawPairs.filter chartKeep).length > 5 then "bar" else "pie")
                ((rawPairs.filter chartKeep).map Prod.fst)
                ((rawPairs.filter chartKeep).map (fun it => it.2.getD ⟨0, 0⟩)))) :=
  C6_chart_derivation ["Item", "Amount"] [chartWitnessRow] chartWitnessSlides
    (by decide) (fun hx => List.noConfusion hx) rfl

/-- C10 witness: the at-most-one bound applied at a concrete table whose
"Total" row has one numeric column. -/
theorem C10_witness :
    ([⟨⟨7, 0⟩, "L0"⟩] : List KpiM).length ≤ 1 :=
  C10_at_most_one_kpi_per_table.1
    (.obj [("t", .arr [.obj [("Item", .str "Total"), ("Amount", .str "7")]])])
    ⟨"t", "L0", FieldTypeM.table, some ["Item", "Amount"]⟩
    [⟨⟨7, 0⟩, "L0"⟩] rfl

/-- C1 witness: the 2-KPI branch of the amended gating theorem applied at
a concrete two-section input. -/
theorem C1_witness :
    ∃ s ∈ twoKpiSlides,
      s.layout = "summary" ∧ s.data = SlideDataM.kpiD [⟨⟨7, 0⟩, "L0"⟩, ⟨⟨7, 0⟩, "L1"⟩] :=
  (C1_summary_gating_amended (kpiTemplate 2) (kpiData 2) twoKpiSlides
    [⟨⟨7, 0⟩, "L0"⟩, ⟨⟨7, 0⟩, "L1"⟩] rfl rfl).2.1 rfl

end SlidePlan
